import Mathlib

/-!
Verification of the Coastal-guard hazard-analysis core against its
natural-language specification.

The definitions below are shallow embeddings of the Python source:

* string helpers model Python's `in` (substring test) and `str.lower`;
* `_normalize_urgency` embeds the urgency normalizer of
  `src/agents/agent2_report_analysis.py`;
* `_calculate_overall_confidence` embeds the confidence aggregator of the
  same file (floats are modelled as exact rationals, `round(x, 3)` as
  round-half-to-even on rationals scaled by 1000);
* `_analyze_correlations` embeds the filter/sort pipeline of the
  correlation analyzer (the per-post LLM call is an oracle parameter);
* `detect_hotspots` and friends embed `src/modules/aggregation.py`
  (the `urgency_counts[urgency] += 1` lookup, which can raise `KeyError`,
  is modelled in an `Except` monad; wall-clock fields such as
  `detection_time` and the timestamp range are omitted because they read
  the system clock);
* `cluster_reports_by_location` and `haversine_distance` embed the greedy
  geospatial clustering of `app.py`, with coordinates as rationals and the
  haversine arithmetic over the real numbers.
-/

open Real List

/-! ### Python string primitives -/

/-- Substring search on character lists: Python's `pat in text`.
The empty pattern is contained in every string, as in Python. -/
def containsSub : List Char → List Char → Bool
  | l@(_ :: rest), pat => pat.isPrefixOf l || containsSub rest pat
  | [], pat => pat.isEmpty

/-- Python's `pat in text` for strings. -/
def pyIn (pat text : String) : Bool := containsSub text.data pat.data

/-- Python's `text.lower()` (ASCII case folding, which covers every cue
word used by the source). -/
def pyLower (s : String) : String := String.mk (s.data.map Char.toLower)

/-! ### UrgencyNormalizer (`_normalize_urgency`) -/

/-- Embedding of `ReportAnalysisAgent._normalize_urgency`
(`src/agents/agent2_report_analysis.py`).  Confidence is an exact
rational.  The cue lists are copied verbatim from the source. -/
def _normalize_urgency (urgency : String) (confidence : ℚ) (post_text : String) : String :=
  let text := pyLower post_text
  let strong_cues := ["emergency", "evacuate", "evacuation", "rescue", "immediately",
    "life threatening", "impassable", "trapped", "collapsed", "collapse", "mayday"]
  let moderate_cues := ["rising", "increasing", "severe", "heavy", "warning", "alert",
    "overflow", "breach", "breached"]
  let down_cues := ["rumor", "hoax", "false alarm", "fake", "test drill", "drill"]
  if down_cues.any (fun c => pyIn c text) then "Low"
  else if (strong_cues.any (fun c => pyIn c text)) ∧ 7/10 ≤ confidence then "High"
  else if (moderate_cues.any (fun c => pyIn c text)) ∧ 55/100 ≤ confidence then "Medium"
  else if urgency = "High" ∧ confidence < 7/10 then "Medium"
  else if urgency = "Medium" ∧ confidence < 1/2 then "Low"
  else if urgency = "" then "Low" else urgency

/-- The six-rule ordered decision list exactly as the claim states it,
with the claim's cue lists ("false-alarm" read as the phrase
"false alarm").  Used only to compare the claim's rules against the
source. -/
def claimDecisionList (urgency : String) (confidence : ℚ) (post_text : String) : String :=
  let text := pyLower post_text
  let claim_strong := ["evacuate", "rescue", "trapped", "collapse", "mayday",
    "immediately", "impassable", "life threatening"]
  let claim_moderate := ["rising", "severe", "heavy", "warning", "alert", "overflow", "breach"]
  let claim_down := ["rumor", "hoax", "false alarm", "fake", "drill"]
  if claim_down.any (fun c => pyIn c text) then "Low"
  else if (claim_strong.any (fun c => pyIn c text)) ∧ 7/10 ≤ confidence then "High"
  else if (claim_moderate.any (fun c => pyIn c text)) ∧ 55/100 ≤ confidence then "Medium"
  else if urgency = "High" ∧ confidence < 7/10 then "Medium"
  else if urgency = "Medium" ∧ confidence < 1/2 then "Low"
  else if urgency = "" then "Low" else urgency

/-- The claim's six-rule ordered decision list amended to carry the
source's full cue lists: the strong-cue list also contains "emergency",
"evacuation" and "collapsed", the moderate-cue list also contains
"increasing" and "breached", and the de-escalation list also contains
"test drill". -/
def amendedDecisionList (urgency : String) (confidence : ℚ) (post_text : String) : String :=
  let text := pyLower post_text
  let strong := ["emergency", "evacuate", "evacuation", "rescue", "immediately",
    "life threatening", "impassable", "trapped", "collapsed", "collapse", "mayday"]
  let moderate := ["rising", "increasing", "severe", "heavy", "warning", "alert",
    "overflow", "breach", "breached"]
  let de_escalation := ["rumor", "hoax", "false alarm", "fake", "test drill", "drill"]
  if de_escalation.any (fun c => pyIn c text) then "Low"
  else if (strong.any (fun c => pyIn c text)) ∧ 7/10 ≤ confidence then "High"
  else if (moderate.any (fun c => pyIn c text)) ∧ 55/100 ≤ confidence then "Medium"
  else if urgency = "High" ∧ confidence < 7/10 then "Medium"
  else if urgency = "Medium" ∧ confidence < 1/2 then "Low"
  else if urgency = "" then "Low" else urgency

/-- C4 counterexample: on the text "emergency" (urgency "Low",
confidence 0.9) the source returns "High" because "emergency" is in its
strong-cue list, while the claim's rule list — which omits "emergency" —
falls through to the pass-through rule and returns "Low". -/
theorem c4_counterexample :
    _normalize_urgency "Low" (9/10) "emergency" = "High" ∧
    claimDecisionList "Low" (9/10) "emergency" = "Low" ∧
    _normalize_urgency "Low" (9/10) "emergency" ≠
      claimDecisionList "Low" (9/10) "emergency" := by
  have hdown : (["rumor", "hoax", "false alarm", "fake", "test drill", "drill"].any
      (fun c => pyIn c (pyLower "emergency"))) = false := by decide
  have hstrong : (["emergency", "evacuate", "evacuation", "rescue", "immediately",
      "life threatening", "impassable", "trapped", "collapsed", "collapse", "mayday"].any
      (fun c => pyIn c (pyLower "emergency"))) = true := by decide
  have hcdown : (["rumor", "hoax", "false alarm", "fake", "drill"].any
      (fun c => pyIn c (pyLower "emergency"))) = false := by decide
  have hcstrong : (["evacuate", "rescue", "trapped", "collapse", "mayday",
      "immediately", "impassable", "life threatening"].any
      (fun c => pyIn c (pyLower "emergency"))) = false := by decide
  have hcmod : (["rising", "severe", "heavy", "warning", "alert", "overflow", "breach"].any
      (fun c => pyIn c (pyLower "emergency"))) = false := by decide
  have h1 : _normalize_urgency "Low" (9/10) "emergency" = "High" := by
    simp only [_normalize_urgency, hdown, hstrong]
    norm_num
  have h2 : claimDecisionList "Low" (9/10) "emergency" = "Low" := by
    simp only [claimDecisionList, hcdown, hcstrong, hcmod]
    norm_num
  refine ⟨h1, h2, ?_⟩
  rw [h1, h2]
  decide

/-- C4 (amended): `_normalize_urgency` implements the six-rule ordered
decision list with the source's cue lists (de-escalation forces Low;
strong cue with confidence ≥ 0.7 gives High; moderate cue with
confidence ≥ 0.55 gives Medium; High with confidence < 0.7 downgrades to
Medium; Medium with confidence < 0.5 downgrades to Low; otherwise the
input urgency passes through, Low if absent).  In particular the text
"rumor: fake flood drill in Chennai" with urgency High and confidence
0.9 yields Low. -/
theorem c4_normalize_urgency_decision_list :
    (∀ (urgency : String) (confidence : ℚ) (post_text : String),
      _normalize_urgency urgency confidence post_text =
        amendedDecisionList urgency confidence post_text) ∧
    _normalize_urgency "High" (9/10) "rumor: fake flood drill in Chennai" = "Low" := by
  exact ⟨fun _ _ _ => rfl, rfl⟩

/-! ### ConfidenceAggregator (`_calculate_overall_confidence`) -/

/-- A correlation result as consumed by the confidence aggregator: the
fields `_calculate_overall_confidence` reads via `corr.get(...)`.
Scores and confidences are exact rationals. -/
structure Corr where
  correlation_score : ℚ
  confidence : ℚ
  urgency : String
  matching_elements : List String
  post_text : String
deriving DecidableEq

/-- Embedding of `_is_recent_post`: the post text (lower-cased) contains
one of the recency indicators. -/
def _is_recent_post (post_text : String) : Bool :=
  ["now", "currently", "right now", "happening", "just", "minutes ago",
    "hours ago"].any (fun ind => pyIn ind (pyLower post_text))

/-- Round half to even at integer precision (Python's `round` tie rule). -/
def roundHalfEven (q : ℚ) : ℤ :=
  if q - ⌊q⌋ < 1/2 then ⌊q⌋
  else if 1/2 < q - ⌊q⌋ then ⌊q⌋ + 1
  else if 2 ∣ ⌊q⌋ then ⌊q⌋ else ⌊q⌋ + 1

/-- Python's `round(x, 3)` modelled exactly on rationals. -/
def round3 (q : ℚ) : ℚ := (roundHalfEven (1000 * q) : ℚ) / 1000

/-- `'location' in str(corr.get('matching_elements', []))`: since the cue
is purely alphabetic it cannot straddle the quotes and separators of the
Python list rendering, so it holds exactly when some element contains it. -/
def mentionsLocation (c : Corr) : Bool :=
  c.matching_elements.any (fun e => pyIn "location" e)

/-- `'hazard' in str(corr.get('matching_elements', []))`, as above. -/
def mentionsHazard (c : Corr) : Bool :=
  c.matching_elements.any (fun e => pyIn "hazard" e)

/-- Per-result contribution to `urgency_boost`. -/
def urgencyBoostOf (c : Corr) : ℚ :=
  if c.urgency = "High" then 5/100 else if c.urgency = "Medium" then 2/100 else 0

/-- The enhancement-and-cap cascade of `_calculate_overall_confidence`,
applied to the base weighted average `v0`: the three conditional bonuses
with their caps, the unconditional urgency adjustment capped at 0.92, the
conditional recency bonus capped at 0.90, the final 0.95 ceiling, and the
rounding to three decimals.  `p1`/`p2` are the two high-confidence-count
tests, `p3` the location test, `p4` the hazard test and `p5` the recency
test, exactly as ordered in the source. -/
def enhancementCascade (v0 urgency_boost : ℚ) (p1 p2 p3 p4 p5 : Prop)
    [Decidable p1] [Decidable p2] [Decidable p3] [Decidable p4] [Decidable p5] : ℚ :=
  let v1 :=
    if p1 then min (v0 + 5/100) (95/100)
    else if p2 then min (v0 + 3/100) (92/100)
    else v0
  let v2 := if p3 then min (v1 + 3/100) (90/100) else v1
  let v3 := if p4 then min (v2 + 2/100) (88/100) else v2
  let v4 := min (v3 + urgency_boost * (1/2)) (92/100)
  let v5 := if p5 then min (v4 + 2/100) (90/100) else v4
  round3 (min v5 (95/100))

/-- Embedding of `ReportAnalysisAgent._calculate_overall_confidence`
(`src/agents/agent2_report_analysis.py`).  The accumulation loop is
expressed with list sums and counts; all float arithmetic is exact
rational arithmetic. -/
def _calculate_overall_confidence (correlations : List Corr) : ℚ :=
  if correlations = [] then 0
  else
    let total_weight :=
      (correlations.map (fun c => c.correlation_score * c.confidence)).sum
    let weighted_score :=
      (correlations.map
        (fun c => c.correlation_score * c.confidence * c.correlation_score)).sum
    let high_confidence_count :=
      correlations.countP (fun c => decide (7/10 < c.correlation_score))
    let urgency_boost := (correlations.map urgencyBoostOf).sum
    let location_matches := correlations.countP mentionsLocation
    let hazard_matches := correlations.countP mentionsHazard
    let recent_count := correlations.countP (fun c => _is_recent_post c.post_text)
    if total_weight = 0 then 0
    else
      enhancementCascade (weighted_score / total_weight) urgency_boost
        (3 ≤ high_confidence_count) (2 ≤ high_confidence_count)
        (2 ≤ location_matches) (2 ≤ hazard_matches) (2 ≤ recent_count)

/-- The rounding step never pushes a value above an integer bound. -/
lemma roundHalfEven_le_intCast {q : ℚ} {n : ℤ} (h : q ≤ (n : ℚ)) :
    roundHalfEven q ≤ n := by
  unfold roundHalfEven
  have hf : ⌊q⌋ ≤ n := Int.floor_le_floor h |>.trans_eq (Int.floor_intCast n)
  have hfq : (⌊q⌋ : ℚ) ≤ q := Int.floor_le q
  split
  · exact hf
  · split
    · rename_i hlt
      push_neg at *
      have : (⌊q⌋ : ℚ) + 1/2 < q := by
        have : q - ⌊q⌋ > 1/2 := by linarith
        linarith
      have hq : (⌊q⌋ : ℚ) < (n : ℚ) - 1/2 := by linarith
      have : (⌊q⌋ : ℚ) < (n : ℚ) := by linarith
      have : ⌊q⌋ < n := by exact_mod_cast this
      omega
    · rename_i h1 h2
      push_neg at *
      have hr : q - ⌊q⌋ = 1/2 := le_antisymm h2 h1
      have : (⌊q⌋ : ℚ) = q - 1/2 := by linarith
      have : (⌊q⌋ : ℚ) < (n : ℚ) := by
        by_contra hc
        push_neg at hc
        have : q ≤ (⌊q⌋ : ℚ) + 1/2 - 1/2 + 1/2 := by linarith
        nlinarith
      have hfn : ⌊q⌋ < n := by exact_mod_cast this
      split
      · omega
      · omega

/-- The rounding step preserves nonnegativity. -/
lemma roundHalfEven_nonneg {q : ℚ} (h : 0 ≤ q) : 0 ≤ roundHalfEven q := by
  unfold roundHalfEven
  have hf : 0 ≤ ⌊q⌋ := Int.floor_nonneg.mpr h
  split
  · exact hf
  · split
    · omega
    · split
      · exact hf
      · omega

/-- Bounds for `round3` below an integer-thousandths bound. -/
lemma round3_le {q : ℚ} {n : ℤ} (h : q ≤ (n : ℚ) / 1000) : round3 q ≤ (n : ℚ) / 1000 := by
  unfold round3
  have h1 : 1000 * q ≤ (n : ℚ) := by linarith
  have := roundHalfEven_le_intCast h1
  have : (roundHalfEven (1000 * q) : ℚ) ≤ (n : ℚ) := by exact_mod_cast this
  linarith

/-- `round3` preserves nonnegativity. -/
lemma round3_nonneg {q : ℚ} (h : 0 ≤ q) : 0 ≤ round3 q := by
  unfold round3
  have h1 : (0:ℚ) ≤ 1000 * q := by linarith
  have := roundHalfEven_nonneg h1
  have : (0:ℚ) ≤ (roundHalfEven (1000 * q) : ℚ) := by exact_mod_cast this
  positivity

/-- The cascade always lands at or below 0.92: the urgency-adjustment
step caps at 0.92 unconditionally and no later step raises the value
above it. -/
lemma enhancementCascade_le_92 {v0 urgency_boost : ℚ} {p1 p2 p3 p4 p5 : Prop}
    [Decidable p1] [Decidable p2] [Decidable p3] [Decidable p4] [Decidable p5] :
    enhancementCascade v0 urgency_boost p1 p2 p3 p4 p5 ≤ 92/100 := by
  simp only [enhancementCascade]
  have h : ((92:ℤ) : ℚ) / 1000 = 92/1000 := by norm_num
  have h920 : ((920:ℤ) : ℚ) / 1000 = 92/100 := by norm_num
  rw [← h920]
  apply round3_le
  rw [h920]
  split
  · exact le_trans (min_le_left _ _) (le_trans (min_le_right _ _) (by norm_num))
  · exact le_trans (min_le_left _ _) (min_le_right _ _)

/-- The cascade keeps nonnegative inputs nonnegative. -/
lemma enhancementCascade_nonneg {v0 urgency_boost : ℚ} {p1 p2 p3 p4 p5 : Prop}
    [Decidable p1] [Decidable p2] [Decidable p3] [Decidable p4] [Decidable p5]
    (hv0 : 0 ≤ v0) (hb : 0 ≤ urgency_boost) :
    0 ≤ enhancementCascade v0 urgency_boost p1 p2 p3 p4 p5 := by
  simp only [enhancementCascade]
  apply round3_nonneg
  have h1 : 0 ≤ if p1 then min (v0 + 5/100) (95/100)
      else if p2 then min (v0 + 3/100) (92/100) else v0 := by
    split
    · exact le_min (by linarith) (by norm_num)
    · split
      · exact le_min (by linarith) (by norm_num)
      · exact hv0
  set v1 := if p1 then min (v0 + 5/100) (95/100)
      else if p2 then min (v0 + 3/100) (92/100) else v0 with hv1
  have h2 : 0 ≤ if p3 then min (v1 + 3/100) (90/100) else v1 := by
    split
    · exact le_min (by linarith) (by norm_num)
    · exact h1
  set v2 := if p3 then min (v1 + 3/100) (90/100) else v1 with hv2def
  have h3 : 0 ≤ if p4 then min (v2 + 2/100) (88/100) else v2 := by
    split
    · exact le_min (by linarith) (by norm_num)
    · exact h2
  set v3 := if p4 then min (v2 + 2/100) (88/100) else v2 with hv3def
  have h4 : 0 ≤ min (v3 + urgency_boost * (1/2)) (92/100) :=
    le_min (by linarith) (by norm_num)
  set v4 := min (v3 + urgency_boost * (1/2)) (92/100) with hv4def
  have h5 : 0 ≤ if p5 then min (v4 + 2/100) (90/100) else v4 := by
    split
    · exact le_min (by linarith) (by norm_num)
    · exact h4
  exact le_min h5 (by norm_num)

/-- The cascade returns an integer number of thousandths. -/
lemma enhancementCascade_thousandths (v0 urgency_boost : ℚ) (p1 p2 p3 p4 p5 : Prop)
    [Decidable p1] [Decidable p2] [Decidable p3] [Decidable p4] [Decidable p5] :
    ∃ k : ℤ, enhancementCascade v0 urgency_boost p1 p2 p3 p4 p5 = (k : ℚ) / 1000 := by
  simp only [enhancementCascade, round3]
  exact ⟨_, rfl⟩

/-- Each correlation's urgency-boost contribution is nonnegative. -/
lemma urgencyBoostOf_nonneg (c : Corr) : 0 ≤ urgencyBoostOf c := by
  unfold urgencyBoostOf
  split
  · norm_num
  · split
    · norm_num
    · exact le_refl 0

/-- Helper: `_calculate_overall_confidence` never exceeds 0.92. -/
lemma confidence_le_92 (correlations : List Corr) :
    _calculate_overall_confidence correlations ≤ 92/100 := by
  simp only [_calculate_overall_confidence]
  split
  · norm_num
  · split
    · norm_num
    · exact enhancementCascade_le_92

/-- Helper: the returned value is always an integer number of
thousandths. -/
lemma confidence_thousandths (correlations : List Corr) :
    ∃ k : ℤ, _calculate_overall_confidence correlations = (k : ℚ) / 1000 := by
  simp only [_calculate_overall_confidence]
  split
  · exact ⟨0, by norm_num⟩
  · split
    · exact ⟨0, by norm_num⟩
    · exact enhancementCascade_thousandths _ _ _ _ _ _ _

/-- C9: on every input list — with no constraint at all on the stored
scores and confidences — `_calculate_overall_confidence` returns at most
0.92, because the urgency-adjustment step caps the running value at 0.92
unconditionally and no later step raises it above 0.92; the documented
0.95 ceiling is therefore never attained. -/
theorem c9_confidence_never_exceeds_092 (correlations : List Corr) :
    _calculate_overall_confidence correlations ≤ 92/100 :=
  confidence_le_92 correlations

/-- C1: the aggregator returns 0.0 on the empty list, and on every
non-empty list whose scores and confidences lie in [0,1] it returns a
value in [0, 0.95] that is an integer number of thousandths (three
decimal places) and is never 1.0. -/
theorem c1_aggregate_bounds :
    _calculate_overall_confidence [] = 0 ∧
    ∀ correlations : List Corr, correlations ≠ [] →
      (∀ c ∈ correlations, 0 ≤ c.correlation_score ∧ c.correlation_score ≤ 1 ∧
        0 ≤ c.confidence ∧ c.confidence ≤ 1) →
      0 ≤ _calculate_overall_confidence correlations ∧
      _calculate_overall_confidence correlations ≤ 95/100 ∧
      (∃ k : ℤ, _calculate_overall_confidence correlations = (k : ℚ) / 1000) ∧
      _calculate_overall_confidence correlations ≠ 1 := by
  constructor
  · simp [_calculate_overall_confidence]
  intro l hne hB
  have hws : 0 ≤ (l.map
      (fun c => c.correlation_score * c.confidence * c.correlation_score)).sum := by
    apply List.sum_nonneg
    intro x hx
    obtain ⟨c, hc, rfl⟩ := List.mem_map.mp hx
    obtain ⟨h1, _, h3, _⟩ := hB c hc
    exact mul_nonneg (mul_nonneg h1 h3) h1
  have htw : 0 ≤ (l.map (fun c => c.correlation_score * c.confidence)).sum := by
    apply List.sum_nonneg
    intro x hx
    obtain ⟨c, hc, rfl⟩ := List.mem_map.mp hx
    obtain ⟨h1, _, h3, _⟩ := hB c hc
    exact mul_nonneg h1 h3
  have hboost : 0 ≤ (l.map urgencyBoostOf).sum := by
    apply List.sum_nonneg
    intro x hx
    obtain ⟨c, hc, rfl⟩ := List.mem_map.mp hx
    exact urgencyBoostOf_nonneg c
  have hne1 : _calculate_overall_confidence l ≠ 1 := by
    intro h
    have := confidence_le_92 l
    rw [h] at this
    norm_num at this
  have h95 : _calculate_overall_confidence l ≤ 95/100 :=
    le_trans (confidence_le_92 l) (by norm_num)
  refine ⟨?_, h95, confidence_thousandths l, hne1⟩
  simp only [_calculate_overall_confidence, if_neg hne]
  split
  · exact le_refl 0
  · exact enhancementCascade_nonneg (div_nonneg hws htw) hboost

/-- A concrete correlation result used to witness C1. -/
def c1wCorr : Corr :=
  { correlation_score := 1/2, confidence := 1/2, urgency := "Low",
    matching_elements := [], post_text := "" }

/-- Witness for C1: the hypotheses hold at the singleton list
`[c1wCorr]` and the theorem yields the bounds there. -/
theorem c1_aggregate_bounds_witness :
    [c1wCorr] ≠ ([] : List Corr) ∧
    (∀ c ∈ [c1wCorr], 0 ≤ c.correlation_score ∧ c.correlation_score ≤ 1 ∧
      0 ≤ c.confidence ∧ c.confidence ≤ 1) ∧
    (0 ≤ _calculate_overall_confidence [c1wCorr] ∧
      _calculate_overall_confidence [c1wCorr] ≤ 95/100 ∧
      (∃ k : ℤ, _calculate_overall_confidence [c1wCorr] = (k : ℚ) / 1000) ∧
      _calculate_overall_confidence [c1wCorr] ≠ 1) := by
  have h1 : [c1wCorr] ≠ ([] : List Corr) := by simp
  have h2 : ∀ c ∈ [c1wCorr], 0 ≤ c.correlation_score ∧ c.correlation_score ≤ 1 ∧
      0 ≤ c.confidence ∧ c.confidence ≤ 1 := by
    intro c hc
    simp only [List.mem_singleton] at hc
    subst hc
    refine ⟨?_, ?_, ?_, ?_⟩ <;> norm_num [c1wCorr]
  exact ⟨h1, h2, c1_aggregate_bounds.2 [c1wCorr] h1 h2⟩

/-! ### CorrelationScorer retention (`_analyze_correlations`) -/

/-- Descending comparison on correlation scores, as passed to the final
`correlations.sort(key=..., reverse=True)` (a stable sort, like
`List.mergeSort`). -/
def corrDesc (a b : Corr) : Bool := decide (b.correlation_score ≤ a.correlation_score)

/-- Embedding of `ReportAnalysisAgent._analyze_correlations`
(`src/agents/agent2_report_analysis.py`).  The per-post work — the call
to `_analyze_single_correlation` for a fixed report — is the oracle
parameter `analyze_single`; a post whose analysis raises is skipped by
the source's `except: continue`, modelled by `none`.  Results with
`correlation_score > 0.3` are kept and sorted descending by score. -/
def _analyze_correlations {α : Type} (analyze_single : α → Option Corr)
    (social_posts : List α) : List Corr :=
  let correlations := social_posts.filterMap analyze_single
  let kept := correlations.filter (fun c => decide ((3:ℚ)/10 < c.correlation_score))
  kept.mergeSort corrDesc

lemma corrDesc_trans : ∀ a b c : Corr,
    corrDesc a b = true → corrDesc b c = true → corrDesc a c = true := by
  intro a b c h1 h2
  simp only [corrDesc, decide_eq_true_eq] at h1 h2 ⊢
  exact le_trans h2 h1

lemma corrDesc_total : ∀ a b : Corr, (corrDesc a b || corrDesc b a) = true := by
  intro a b
  simp only [corrDesc, Bool.or_eq_true, decide_eq_true_eq]
  exact le_total b.correlation_score a.correlation_score

/-- C2: every correlation result retained by `_analyze_correlations` has
score strictly greater than 0.3, and the retained list is sorted in
descending order of `correlation_score`; no result with score ≤ 0.3 is
ever kept, for any report (oracle) and any post list. -/
theorem c2_correlation_retention {α : Type} (analyze_single : α → Option Corr)
    (social_posts : List α) :
    (∀ c ∈ _analyze_correlations analyze_single social_posts,
      (3:ℚ)/10 < c.correlation_score) ∧
    (_analyze_correlations analyze_single social_posts).Pairwise
      (fun a b => b.correlation_score ≤ a.correlation_score) := by
  constructor
  · intro c hc
    unfold _analyze_correlations at hc
    rw [List.mem_mergeSort] at hc
    have h := List.of_mem_filter hc
    simpa using h
  · unfold _analyze_correlations
    have h := List.sorted_mergeSort corrDesc_trans corrDesc_total
      ((social_posts.filterMap analyze_single).filter
        (fun c => decide ((3:ℚ)/10 < c.correlation_score)))
    exact h.imp (fun hab => by simpa [corrDesc] using hab)

/-! ### HotspotDetector (`src/modules/aggregation.py`) -/

/-- The `inferred_location` dict of a social post (city/state keys may be
absent). -/
structure InferredLocation where
  city : Option String
  state : Option String
deriving DecidableEq

/-- The `ai_analysis` dict of a social post (keys may be absent). -/
structure AiAnalysis where
  hazard_type : Option String
  urgency : Option String
  confidence : Option ℚ
deriving DecidableEq

/-- An analyzed social post as consumed by `detect_hotspots`.  A missing
`inferred_location` models both an absent key and Python's falsy empty
dict. -/
structure Post where
  id : String
  cleaned_text : String
  is_hazard : Bool
  meets_confidence_threshold : Bool
  inferred_location : Option InferredLocation
  ai_analysis : Option AiAnalysis
deriving DecidableEq

/-- `_group_posts_by_location`'s key: `f"{city}, {state}"` with
"Unknown" defaults, or "Unknown Location" for a missing/empty dict. -/
def locationKey (p : Post) : String :=
  match p.inferred_location with
  | none => "Unknown Location"
  | some loc => loc.city.getD "Unknown" ++ ", " ++ loc.state.getD "Unknown"

/-- `post.get('ai_analysis', dict()).get('hazard_type', 'Other')`. -/
def aiHazardType (p : Post) : String :=
  match p.ai_analysis with
  | none => "Other"
  | some a => a.hazard_type.getD "Other"

/-- `analysis.get('urgency', 'Low')`. -/
def aiUrgency (p : Post) : String :=
  match p.ai_analysis with
  | none => "Low"
  | some a => a.urgency.getD "Low"

/-- `analysis.get('confidence', 0.0)`. -/
def aiConfidence (p : Post) : ℚ :=
  match p.ai_analysis with
  | none => 0
  | some a => a.confidence.getD 0

/-- Keys of a list in first-occurrence order, as a `defaultdict` built by
one left-to-right pass presents them. -/
def firstKeys {β : Type} [DecidableEq β] : List β → List β
  | [] => []
  | k :: rest => k :: (firstKeys rest).filter (fun x => decide (x ≠ k))

/-- Grouping by a key function: keys in first-occurrence order, each
paired with the sublist of entries carrying that key in input order —
exactly the content of the source's `defaultdict(list)` loops. -/
def groupedBy {α β : Type} [DecidableEq β] (key : α → β) (l : List α) :
    List (β × List α) :=
  (firstKeys (l.map key)).map (fun k => (k, l.filter (fun x => decide (key x = k))))

/-- The `urgency_counts` dict, fixed keys Low/Medium/High. -/
structure UrgCounts where
  low : ℕ
  med : ℕ
  high : ℕ
deriving DecidableEq

/-- `urgency_counts[urgency] += 1`: a lookup of any other key raises
`KeyError`, which the source does not catch. -/
def bumpUrgency (cs : UrgCounts) (u : String) : Except String UrgCounts :=
  if u = "Low" then .ok { cs with low := cs.low + 1 }
  else if u = "Medium" then .ok { cs with med := cs.med + 1 }
  else if u = "High" then .ok { cs with high := cs.high + 1 }
  else .error ("KeyError: " ++ u)

/-- The urgency-counting loop of `_create_hotspot`. -/
def tallyUrgencies : List Post → UrgCounts → Except String UrgCounts
  | [], cs => .ok cs
  | p :: rest, cs =>
    match bumpUrgency cs (aiUrgency p) with
    | .error e => .error e
    | .ok cs2 => tallyUrgencies rest cs2

/-- A detected hotspot.  `detection_time`, the timestamp range and the
location-details aggregate are omitted: they read the wall clock or
only rearrange location strings and no claim touches them. -/
structure Hotspot where
  id : String
  location : String
  hazard_type : String
  post_count : ℕ
  urgency_breakdown : UrgCounts
  overall_urgency : String
  average_confidence : ℚ
  status : String
  contributing_posts : List Post
deriving DecidableEq

/-- Embedding of `AggregationService._create_hotspot`: tallies the
urgency histogram (raising `KeyError` on an unexpected urgency value),
averages the confidences, and derives the overall urgency with the
30%/40% policy thresholds. -/
def _create_hotspot (location_key hazard_type : String) (posts : List Post) :
    Except String Hotspot :=
  match tallyUrgencies posts { low := 0, med := 0, high := 0 } with
  | .error e => .error e
  | .ok urgency_counts =>
    let post_count := posts.length
    let confidence_scores := posts.map aiConfidence
    let avg_confidence :=
      if confidence_scores = [] then 0
      else confidence_scores.sum / (confidence_scores.length : ℚ)
    let overall_urgency :=
      if (post_count : ℚ) * (3/10) ≤ (urgency_counts.high : ℚ) then "High"
      else if (post_count : ℚ) * (4/10) ≤ (urgency_counts.med : ℚ) then "Medium"
      else "Low"
    .ok { id := "hotspot_" ++ location_key ++ "_" ++ hazard_type,
          location := location_key,
          hazard_type := hazard_type,
          post_count := post_count,
          urgency_breakdown := urgency_counts,
          overall_urgency := overall_urgency,
          average_confidence := round3 avg_confidence,
          status := "pending_validation",
          contributing_posts := posts.take 10 }

/-- Sequential effectful map over `Except`, stopping at the first error —
the control flow of a Python `for` loop whose body may raise. -/
def exceptMapM {α β ε : Type} (f : α → Except ε β) : List α → Except ε (List β)
  | [] => .ok []
  | x :: rest =>
    match f x with
    | .error e => .error e
    | .ok y =>
      match exceptMapM f rest with
      | .error e => .error e
      | .ok ys => .ok (y :: ys)

/-- Embedding of `AggregationService._detect_location_hotspots`: a
location group below the threshold yields nothing; otherwise each
hazard-type subgroup of size ≥ threshold becomes a hotspot. -/
def _detect_location_hotspots (threshold : ℕ) (location_key : String)
    (posts : List Post) : Except String (List Hotspot) :=
  if posts.length < threshold then .ok []
  else
    exceptMapM (fun g => _create_hotspot location_key g.1 g.2)
      ((groupedBy aiHazardType posts).filter (fun g => decide (threshold ≤ g.2.length)))

/-- The filter of `detect_hotspots`: posts flagged both `is_hazard` and
`meets_confidence_threshold`. -/
def hazardFiltered (analyzed_posts : List Post) : List Post :=
  analyzed_posts.filter (fun p => p.is_hazard && p.meets_confidence_threshold)

/-- Embedding of `AggregationService.detect_hotspots`
(`src/modules/aggregation.py`).  The post-count threshold is the
`HOTSPOT_POST_THRESHOLD` configuration value. -/
def detect_hotspots (analyzed_posts : List Post) (threshold : ℕ) :
    Except String (List Hotspot) :=
  let hazard_posts := hazardFiltered analyzed_posts
  if hazard_posts = [] then .ok []
  else
    match exceptMapM (fun g => _detect_location_hotspots threshold g.1 g.2)
        (groupedBy locationKey hazard_posts) with
    | .error e => .error e
    | .ok hotspot_lists => .ok hotspot_lists.flatten

/-- The size of one (location key, hazard type) group among the
hazard-flagged, confident posts. -/
def groupCount (analyzed_posts : List Post) (L H : String) : ℕ :=
  ((hazardFiltered analyzed_posts).filter
    (fun p => decide (locationKey p = L) && decide (aiHazardType p = H))).length

lemma mem_firstKeys {β : Type} [DecidableEq β] {k : β} :
    ∀ {L : List β}, k ∈ firstKeys L ↔ k ∈ L := by
  intro L
  induction L with
  | nil => simp [firstKeys]
  | cons x rest ih =>
    simp only [firstKeys, List.mem_cons, List.mem_filter, decide_eq_true_eq]
    constructor
    · rintro (rfl | ⟨hk, _⟩)
      · exact Or.inl rfl
      · exact Or.inr (ih.mp hk)
    · rintro (rfl | hk)
      · exact Or.inl rfl
      · by_cases hx : k = x
        · exact Or.inl hx
        · exact Or.inr ⟨ih.mpr hk, hx⟩

lemma mem_groupedBy {α β : Type} [DecidableEq β] {key : α → β} {l : List α}
    {k : β} {g : List α} :
    (k, g) ∈ groupedBy key l ↔
      k ∈ l.map key ∧ g = l.filter (fun x => decide (key x = k)) := by
  unfold groupedBy
  rw [List.mem_map]
  constructor
  · rintro ⟨k2, hk2, heq⟩
    obtain ⟨rfl, rfl⟩ : k2 = k ∧ (l.filter (fun x => decide (key x = k2))) = g := by
      constructor
      · exact congrArg Prod.fst heq
      · exact congrArg Prod.snd heq
    exact ⟨mem_firstKeys.mp hk2, rfl⟩
  · rintro ⟨hk, rfl⟩
    exact ⟨k, mem_firstKeys.mpr hk, rfl⟩

lemma exceptMapM_ok_forward {α β ε : Type} {f : α → Except ε β} :
    ∀ {l : List α} {ys : List β}, exceptMapM f l = .ok ys →
      ∀ y ∈ ys, ∃ x ∈ l, f x = .ok y := by
  intro l
  induction l with
  | nil =>
    intro ys h y hy
    simp only [exceptMapM, Except.ok.injEq] at h
    subst h
    simp at hy
  | cons x rest ih =>
    intro ys h y hy
    simp only [exceptMapM] at h
    cases hfx : f x with
    | error e => rw [hfx] at h; exact absurd h (by simp)
    | ok z =>
      rw [hfx] at h
      cases hrest : exceptMapM f rest with
      | error e => rw [hrest] at h; exact absurd h (by simp)
      | ok zs =>
        rw [hrest] at h
        simp only [Except.ok.injEq] at h
        subst h
        rcases List.mem_cons.mp hy with rfl | hy2
        · exact ⟨x, List.mem_cons_self x rest, hfx⟩
        · obtain ⟨x2, hx2, hfx2⟩ := ih hrest y hy2
          exact ⟨x2, List.mem_cons_of_mem x hx2, hfx2⟩

lemma exceptMapM_ok_backward {α β ε : Type} {f : α → Except ε β} :
    ∀ {l : List α} {ys : List β}, exceptMapM f l = .ok ys →
      ∀ x ∈ l, ∃ y ∈ ys, f x = .ok y := by
  intro l
  induction l with
  | nil =>
    intro ys h x hx
    simp at hx
  | cons x rest ih =>
    intro ys h x2 hx2
    simp only [exceptMapM] at h
    cases hfx : f x with
    | error e => rw [hfx] at h; exact absurd h (by simp)
    | ok z =>
      rw [hfx] at h
      cases hrest : exceptMapM f rest with
      | error e => rw [hrest] at h; exact absurd h (by simp)
      | ok zs =>
        rw [hrest] at h
        simp only [Except.ok.injEq] at h
        subst h
        rcases List.mem_cons.mp hx2 with rfl | hx3
        · exact ⟨z, List.mem_cons_self z zs, hfx⟩
        · obtain ⟨y, hy, hfy⟩ := ih hrest x2 hx3
          exact ⟨y, List.mem_cons_of_mem z hy, hfy⟩

lemma exceptMapM_ok_exists {α β ε : Type} {f : α → Except ε β} :
    ∀ {l : List α}, (∀ x ∈ l, ∃ y, f x = .ok y) →
      ∃ ys, exceptMapM f l = .ok ys := by
  intro l
  induction l with
  | nil => intro _; exact ⟨[], rfl⟩
  | cons x rest ih =>
    intro h
    obtain ⟨y, hy⟩ := h x (List.mem_cons_self x rest)
    obtain ⟨ys, hys⟩ := ih (fun z hz => h z (List.mem_cons_of_mem x hz))
    refine ⟨y :: ys, ?_⟩
    simp only [exceptMapM, hy, hys]

lemma tallyUrgencies_ok_counts :
    ∀ (ps : List Post) (cs cs2 : UrgCounts), tallyUrgencies ps cs = .ok cs2 →
      cs2.high = cs.high + ps.countP (fun p => decide (aiUrgency p = "High")) ∧
      cs2.med = cs.med + ps.countP (fun p => decide (aiUrgency p = "Medium")) ∧
      cs2.low = cs.low + ps.countP (fun p => decide (aiUrgency p = "Low")) := by
  intro ps
  induction ps with
  | nil =>
    intro cs cs2 h
    simp only [tallyUrgencies, Except.ok.injEq] at h
    subst h
    simp
  | cons p rest ih =>
    intro cs cs2 h
    simp only [tallyUrgencies, bumpUrgency] at h
    by_cases hL : aiUrgency p = "Low"
    · rw [if_pos hL] at h
      obtain ⟨h1, h2, h3⟩ := ih _ _ h
      refine ⟨?_, ?_, ?_⟩ <;>
        simp [List.countP_cons, hL, h1, h2, h3] <;> omega
    · rw [if_neg hL] at h
      by_cases hM : aiUrgency p = "Medium"
      · rw [if_pos hM] at h
        obtain ⟨h1, h2, h3⟩ := ih _ _ h
        refine ⟨?_, ?_, ?_⟩ <;>
          simp [List.countP_cons, hM, hL, h1, h2, h3] <;> omega
      · rw [if_neg hM] at h
        by_cases hH : aiUrgency p = "High"
        · rw [if_pos hH] at h
          obtain ⟨h1, h2, h3⟩ := ih _ _ h
          refine ⟨?_, ?_, ?_⟩ <;>
            simp [List.countP_cons, hH, hM, hL, h1, h2, h3] <;> omega
        · rw [if_neg hH] at h
          exact absurd h (by simp)

lemma tallyUrgencies_ok_of_valid :
    ∀ (ps : List Post),
      (∀ p ∈ ps, aiUrgency p = "Low" ∨ aiUrgency p = "Medium" ∨ aiUrgency p = "High") →
      ∀ cs, ∃ cs2, tallyUrgencies ps cs = .ok cs2 := by
  intro ps
  induction ps with
  | nil => intro _ cs; exact ⟨cs, rfl⟩
  | cons p rest ih =>
    intro h cs
    have hrest := fun z hz => h z (List.mem_cons_of_mem p hz)
    rcases h p (List.mem_cons_self p rest) with hu | hu | hu
    · obtain ⟨cs2, hcs2⟩ := ih hrest { cs with low := cs.low + 1 }
      exact ⟨cs2, by simp only [tallyUrgencies, bumpUrgency, if_pos hu]; exact hcs2⟩
    · obtain ⟨cs2, hcs2⟩ := ih hrest { cs with med := cs.med + 1 }
      refine ⟨cs2, ?_⟩
      have hne : aiUrgency p ≠ "Low" := by rw [hu]; decide
      simp only [tallyUrgencies, bumpUrgency, if_neg hne, if_pos hu]
      exact hcs2
    · obtain ⟨cs2, hcs2⟩ := ih hrest { cs with high := cs.high + 1 }
      refine ⟨cs2, ?_⟩
      have hne1 : aiUrgency p ≠ "Low" := by rw [hu]; decide
      have hne2 : aiUrgency p ≠ "Medium" := by rw [hu]; decide
      simp only [tallyUrgencies, bumpUrgency, if_neg hne1, if_neg hne2, if_pos hu]
      exact hcs2

/-- Field values of a successfully created hotspot. -/
lemma create_hotspot_ok_fields {location_key hazard_type : String}
    {posts : List Post} {h : Hotspot}
    (hok : _create_hotspot location_key hazard_type posts = .ok h) :
    h.location = location_key ∧ h.hazard_type = hazard_type ∧
    h.post_count = posts.length ∧
    h.overall_urgency =
      (if (posts.length : ℚ) * (3/10) ≤
          (posts.countP (fun p => decide (aiUrgency p = "High")) : ℚ) then "High"
       else if (posts.length : ℚ) * (4/10) ≤
          (posts.countP (fun p => decide (aiUrgency p = "Medium")) : ℚ) then "Medium"
       else "Low") := by
  unfold _create_hotspot at hok
  cases hT : tallyUrgencies posts { low := 0, med := 0, high := 0 } with
  | error e => rw [hT] at hok; exact absurd hok (by simp)
  | ok counts =>
    rw [hT] at hok
    obtain ⟨h1, h2, _⟩ := tallyUrgencies_ok_counts posts _ _ hT
    simp only [Except.ok.injEq] at hok
    subst hok
    refine ⟨rfl, rfl, rfl, ?_⟩
    simp only [h1, h2]
    norm_num

/-- C5: a hotspot's overall urgency is "High" exactly when at least 30%
of the group's contributing posts have High urgency, otherwise "Medium"
exactly when at least 40% have Medium urgency, otherwise "Low". -/
theorem c5_hotspot_urgency_rollup (location_key hazard_type : String)
    (posts : List Post) (h : Hotspot)
    (hok : _create_hotspot location_key hazard_type posts = .ok h) :
    (h.overall_urgency = "High" ↔
      (posts.length : ℚ) * (3/10) ≤
        (posts.countP (fun p => decide (aiUrgency p = "High")) : ℚ)) ∧
    (h.overall_urgency = "Medium" ↔
      ¬((posts.length : ℚ) * (3/10) ≤
        (posts.countP (fun p => decide (aiUrgency p = "High")) : ℚ)) ∧
      (posts.length : ℚ) * (4/10) ≤
        (posts.countP (fun p => decide (aiUrgency p = "Medium")) : ℚ)) ∧
    (h.overall_urgency = "Low" ↔
      ¬((posts.length : ℚ) * (3/10) ≤
        (posts.countP (fun p => decide (aiUrgency p = "High")) : ℚ)) ∧
      ¬((posts.length : ℚ) * (4/10) ≤
        (posts.countP (fun p => decide (aiUrgency p = "Medium")) : ℚ))) := by
  obtain ⟨_, _, _, hov⟩ := create_hotspot_ok_fields hok
  rw [hov]
  split
  · rename_i hH
    refine ⟨iff_of_true rfl hH, iff_of_false (by decide) ?_, iff_of_false (by decide) ?_⟩
    · exact fun hc => hc.1 hH
    · exact fun hc => hc.1 hH
  · split
    · rename_i hH hM
      refine ⟨iff_of_false (by decide) hH, iff_of_true rfl ⟨hH, hM⟩,
        iff_of_false (by decide) ?_⟩
      exact fun hc => hc.2 hM
    · rename_i hH hM
      exact ⟨iff_of_false (by decide) hH, iff_of_false (by decide) (fun hc => hM hc.2),
        iff_of_true rfl ⟨hH, hM⟩⟩

/-- A High-urgency Flood post in Mumbai (C5's worked example). -/
def pHighMumbai : Post :=
  { id := "p-high", cleaned_text := "flood",
    is_hazard := true, meets_confidence_threshold := true,
    inferred_location := some { city := some "Mumbai", state := some "Maharashtra" },
    ai_analysis := some { hazard_type := some "Flood", urgency := some "High",
                          confidence := some (8/10) } }

/-- A Low-urgency Flood post in Mumbai (C5's worked example). -/
def pLowMumbai : Post :=
  { id := "p-low", cleaned_text := "flood",
    is_hazard := true, meets_confidence_threshold := true,
    inferred_location := some { city := some "Mumbai", state := some "Maharashtra" },
    ai_analysis := some { hazard_type := some "Flood", urgency := some "Low",
                          confidence := some (8/10) } }

/-- C5's example batch: 25 classified posts, all Flood/Mumbai, 20 of
them High urgency. -/
def ex25 : List Post := List.replicate 20 pHighMumbai ++ List.replicate 5 pLowMumbai

/-- The hotspot created from the example batch. -/
def ex25Hotspot : Hotspot :=
  ((_create_hotspot "Mumbai, Maharashtra" "Flood" ex25).toOption).getD
    { id := "", location := "", hazard_type := "", post_count := 0,
      urgency_breakdown := { low := 0, med := 0, high := 0 },
      overall_urgency := "", average_confidence := 0, status := "",
      contributing_posts := [] }

/-- Witness for C5: the example batch with threshold 20 yields exactly
one hotspot and, by the rollup theorem, its overall urgency is "High"
(20/25 = 80% ≥ 30%). -/
theorem c5_hotspot_urgency_rollup_witness :
    _create_hotspot "Mumbai, Maharashtra" "Flood" ex25 = .ok ex25Hotspot ∧
    detect_hotspots ex25 20 = .ok [ex25Hotspot] ∧
    ex25Hotspot.overall_urgency = "High" := by
  have hcr : _create_hotspot "Mumbai, Maharashtra" "Flood" ex25 = .ok ex25Hotspot := rfl
  have hlen : ex25.length = 25 := by decide
  have hcnt : ex25.countP (fun p => decide (aiUrgency p = "High")) = 20 := by decide
  refine ⟨hcr, rfl, ?_⟩
  exact (c5_hotspot_urgency_rollup _ _ _ _ hcr).1.mpr (by rw [hlen, hcnt]; norm_num)

/-- A confident hazard post whose classifier urgency is "Critical" —
outside the `urgency_counts` key set. -/
def pBadUrgency : Post :=
  { id := "p-bad", cleaned_text := "flood",
    is_hazard := true, meets_confidence_threshold := true,
    inferred_location := some { city := some "Mumbai", state := some "Maharashtra" },
    ai_analysis := some { hazard_type := some "Flood", urgency := some "Critical",
                          confidence := some (9/10) } }

/-- C8 counterexample: a single qualifying post whose `ai_analysis`
urgency is "Critical" makes `detect_hotspots` raise `KeyError` (the
`urgency_counts[urgency] += 1` lookup) instead of returning a list. -/
theorem c8_counterexample :
    detect_hotspots [pBadUrgency] 1 = .error "KeyError: Critical" := rfl

/-- C8 (amended): `detect_hotspots` returns a (possibly empty) hotspot
list — it cannot fail — for every input list and threshold, provided
every post's urgency value (default "Low" when absent, so missing fields
are harmless) lies in the Low/Medium/High key set.  Outside that set the
histogram lookup raises `KeyError`. -/
theorem c8_totality_amended (analyzed_posts : List Post) (threshold : ℕ)
    (hval : ∀ p ∈ analyzed_posts,
      aiUrgency p = "Low" ∨ aiUrgency p = "Medium" ∨ aiUrgency p = "High") :
    ∃ hs, detect_hotspots analyzed_posts threshold = .ok hs := by
  simp only [detect_hotspots]
  split
  · exact ⟨[], rfl⟩
  · have hHP : ∀ p ∈ hazardFiltered analyzed_posts,
        aiUrgency p = "Low" ∨ aiUrgency p = "Medium" ∨ aiUrgency p = "High" := by
      intro p hp
      exact hval p (List.mem_filter.mp hp).1
    have hloc : ∀ g ∈ groupedBy locationKey (hazardFiltered analyzed_posts),
        ∃ lst, _detect_location_hotspots threshold g.1 g.2 = .ok lst := by
      rintro ⟨k, gl⟩ hg
      obtain ⟨_, rfl⟩ := mem_groupedBy.mp hg
      unfold _detect_location_hotspots
      split
      · exact ⟨[], rfl⟩
      · apply exceptMapM_ok_exists
        rintro ⟨hk, g2⟩ hg2
        have hg2m := (List.mem_filter.mp hg2).1
        obtain ⟨_, rfl⟩ := mem_groupedBy.mp hg2m
        have hvalid : ∀ p ∈ ((hazardFiltered analyzed_posts).filter
            (fun x => decide (locationKey x = k))).filter
            (fun x => decide (aiHazardType x = hk)),
            aiUrgency p = "Low" ∨ aiUrgency p = "Medium" ∨ aiUrgency p = "High" := by
          intro p hp
          exact hHP p (List.mem_filter.mp (List.mem_filter.mp hp).1).1
        obtain ⟨cs2, hcs2⟩ := tallyUrgencies_ok_of_valid _ hvalid
          { low := 0, med := 0, high := 0 }
        unfold _create_hotspot
        dsimp only
        rw [hcs2]
        exact ⟨_, rfl⟩
    obtain ⟨lists, hlists⟩ := exceptMapM_ok_exists hloc
    rw [hlists]
    exact ⟨lists.flatten, rfl⟩

/-- Witness for C8 (amended): a concrete valid post satisfies the
urgency hypothesis, and the amended theorem yields a successful run. -/
theorem c8_totality_amended_witness :
    (∀ p ∈ [pHighMumbai], aiUrgency p = "Low" ∨ aiUrgency p = "Medium" ∨
      aiUrgency p = "High") ∧
    ∃ hs, detect_hotspots [pHighMumbai] 1 = .ok hs := by
  have h : ∀ p ∈ [pHighMumbai], aiUrgency p = "Low" ∨ aiUrgency p = "Medium" ∨
      aiUrgency p = "High" := by decide
  exact ⟨h, c8_totality_amended [pHighMumbai] 1 h⟩

/-- C6: with a successful run, a (location key, hazard type) group
yields a hotspot if and only if it is nonempty and its size — counting
only posts flagged both `is_hazard` and `meets_confidence_threshold` —
is at least the threshold; every below-threshold group is silently
dropped. -/
theorem c6_hotspot_emission (analyzed_posts : List Post) (threshold : ℕ)
    (hs : List Hotspot) (hok : detect_hotspots analyzed_posts threshold = .ok hs)
    (L H : String) :
    (∃ h ∈ hs, h.location = L ∧ h.hazard_type = H) ↔
      (0 < groupCount analyzed_posts L H ∧
        threshold ≤ groupCount analyzed_posts L H) := by
  have hgc : ∀ ll : List Post,
      ((ll.filter (fun x => decide (locationKey x = L))).filter
        (fun x => decide (aiHazardType x = H))) =
      ll.filter (fun p => decide (locationKey p = L) && decide (aiHazardType p = H)) := by
    intro ll
    rw [List.filter_filter]
    apply List.filter_congr
    intro a _
    rw [Bool.and_comm]
  simp only [detect_hotspots] at hok
  by_cases hHP : hazardFiltered analyzed_posts = []
  · rw [if_pos hHP] at hok
    simp only [Except.ok.injEq] at hok
    subst hok
    refine iff_of_false (by simp) ?_
    rintro ⟨hpos, -⟩
    unfold groupCount at hpos
    rw [hHP] at hpos
    simp at hpos
  · rw [if_neg hHP] at hok
    cases hmap : exceptMapM (fun g => _detect_location_hotspots threshold g.1 g.2)
        (groupedBy locationKey (hazardFiltered analyzed_posts)) with
    | error e => rw [hmap] at hok; exact absurd hok (by simp)
    | ok lists =>
      rw [hmap] at hok
      simp only [Except.ok.injEq] at hok
      subst hok
      constructor
      · rintro ⟨h, hh, hloc, hhz⟩
        obtain ⟨lst, hlst, hinlst⟩ := List.mem_flatten.mp hh
        obtain ⟨g, hg, hdet⟩ := exceptMapM_ok_forward hmap lst hlst
        obtain ⟨k, gl⟩ := g
        obtain ⟨hkmem, hglval⟩ := mem_groupedBy.mp hg
        dsimp only at hdet
        unfold _detect_location_hotspots at hdet
        split at hdet
        · simp only [Except.ok.injEq] at hdet
          subst hdet
          simp at hinlst
        · obtain ⟨g2, hg2, hcr⟩ := exceptMapM_ok_forward hdet h hinlst
          obtain ⟨hk, g2l⟩ := g2
          have hg2f := List.mem_filter.mp hg2
          obtain ⟨hk2mem, hg2lval⟩ := mem_groupedBy.mp hg2f.1
          dsimp only at hcr
          obtain ⟨hLoc, hHz, -, -⟩ := create_hotspot_ok_fields hcr
          have hkL : k = L := by rw [← hloc, hLoc]
          have hkH : hk = H := by rw [← hhz, hHz]
          subst hkL
          subst hkH
          have hsz : threshold ≤ g2l.length := by
            have := hg2f.2
            simp only [decide_eq_true_eq] at this
            exact this
          have hg2full : g2l = (hazardFiltered analyzed_posts).filter
              (fun p => decide (locationKey p = k) && decide (aiHazardType p = hk)) := by
            rw [hg2lval, hglval, hgc]
          have hlen : groupCount analyzed_posts k hk = g2l.length := by
            rw [hg2full]
            rfl
          constructor
          · rw [hlen]
            obtain ⟨p, hp, hpk⟩ := List.mem_map.mp hk2mem
            have hpmem : p ∈ g2l := by
              rw [hg2lval]
              exact List.mem_filter.mpr ⟨hp, by simp [hpk]⟩
            exact List.length_pos.mpr (List.ne_nil_of_mem hpmem)
          · rw [hlen]
            exact hsz
      · rintro ⟨hpos, hth⟩
        have hpos2 : 0 < ((hazardFiltered analyzed_posts).filter
            (fun p => decide (locationKey p = L) && decide (aiHazardType p = H))).length :=
          hpos
        obtain ⟨p, hp⟩ := List.exists_mem_of_length_pos hpos2
        have hpf := List.mem_filter.mp hp
        have hpl : locationKey p = L := by
          have := hpf.2
          simp only [Bool.and_eq_true, decide_eq_true_eq] at this
          exact this.1
        have hph : aiHazardType p = H := by
          have := hpf.2
          simp only [Bool.and_eq_true, decide_eq_true_eq] at this
          exact this.2
        have hpHP : p ∈ hazardFiltered analyzed_posts := hpf.1
        have hLG : (L, (hazardFiltered analyzed_posts).filter
            (fun x => decide (locationKey x = L))) ∈
            groupedBy locationKey (hazardFiltered analyzed_posts) :=
          mem_groupedBy.mpr ⟨by rw [← hpl]; exact List.mem_map_of_mem _ hpHP, rfl⟩
        obtain ⟨lst, hlst, hdet⟩ := exceptMapM_ok_backward hmap _ hLG
        dsimp only at hdet
        unfold _detect_location_hotspots at hdet
        have hgclen : groupCount analyzed_posts L H =
            (((hazardFiltered analyzed_posts).filter
              (fun x => decide (locationKey x = L))).filter
              (fun x => decide (aiHazardType x = H))).length := by
          rw [hgc]
          rfl
        split at hdet
        · rename_i hlow
          exfalso
          have h1 : groupCount analyzed_posts L H ≤
              ((hazardFiltered analyzed_posts).filter
                (fun x => decide (locationKey x = L))).length := by
            rw [hgclen]
            exact List.length_filter_le _ _
          omega
        · have hpG : p ∈ (hazardFiltered analyzed_posts).filter
              (fun x => decide (locationKey x = L)) :=
            List.mem_filter.mpr ⟨hpHP, by simp [hpl]⟩
          have hG2mem : (H, ((hazardFiltered analyzed_posts).filter
              (fun x => decide (locationKey x = L))).filter
              (fun x => decide (aiHazardType x = H))) ∈
              groupedBy aiHazardType ((hazardFiltered analyzed_posts).filter
                (fun x => decide (locationKey x = L))) :=
            mem_groupedBy.mpr ⟨by rw [← hph]; exact List.mem_map_of_mem _ hpG, rfl⟩
          have hfmem : (H, ((hazardFiltered analyzed_posts).filter
              (fun x => decide (locationKey x = L))).filter
              (fun x => decide (aiHazardType x = H))) ∈
              (groupedBy aiHazardType ((hazardFiltered analyzed_posts).filter
                (fun x => decide (locationKey x = L)))).filter
                (fun g => decide (threshold ≤ g.2.length)) := by
            refine List.mem_filter.mpr ⟨hG2mem, ?_⟩
            simp only [decide_eq_true_eq]
            rw [← hgclen]
            exact hth
          obtain ⟨h, hhlst, hcr⟩ := exceptMapM_ok_backward hdet _ hfmem
          dsimp only at hcr
          obtain ⟨hLoc, hHz, -, -⟩ := create_hotspot_ok_fields hcr
          exact ⟨h, List.mem_flatten.mpr ⟨lst, hlst, hhlst⟩, hLoc, hHz⟩

/-- Witness for C6: on the 25-post example with threshold 20, the run
succeeds and the theorem instantiated at the example's group
("Mumbai, Maharashtra", "Flood") produces the emitted hotspot. -/
theorem c6_hotspot_emission_witness :
    detect_hotspots ex25 20 = .ok [ex25Hotspot] ∧
    (∃ h ∈ [ex25Hotspot], h.location = "Mumbai, Maharashtra" ∧
      h.hazard_type = "Flood") := by
  have hok : detect_hotspots ex25 20 = .ok [ex25Hotspot] := rfl
  refine ⟨hok, ?_⟩
  exact (c6_hotspot_emission ex25 20 [ex25Hotspot] hok "Mumbai, Maharashtra"
    "Flood").mpr ⟨by decide, by decide⟩

/-! ### GeoClusterer (`app.py`) -/

/-- A citizen report row as read by `cluster_reports_by_location`.
Database floats are modelled as rationals; a nullable column is an
`Option`. -/
structure Report where
  latitude : Option ℚ
  longitude : Option ℚ
  address : String
  city : String
  state : String
  created_at : String
  hazard_type : String
  severity : String
  correlation_confidence : Option ℚ
deriving DecidableEq, Inhabited

/-- Python truthiness of a nullable numeric column: `None`, the absent
value and `0.0` are falsy. -/
def truthyCoord : Option ℚ → Bool
  | none => false
  | some q => decide (q ≠ 0)

/-- `[r for r in reports if r['latitude'] and r['longitude']]`. -/
def validReports (reports : List Report) : List Report :=
  reports.filter (fun r => truthyCoord r.latitude && truthyCoord r.longitude)

/-- Degrees to radians, `math.radians`. -/
noncomputable def radiansOf (x : ℝ) : ℝ := x * Real.pi / 180

/-- `math.atan2` (full quadrant definition; the haversine call only ever
reaches the first-quadrant branches). -/
noncomputable def atan2 (y x : ℝ) : ℝ :=
  if 0 < x then Real.arctan (y / x)
  else if x < 0 ∧ 0 ≤ y then Real.arctan (y / x) + Real.pi
  else if x < 0 ∧ y < 0 then Real.arctan (y / x) - Real.pi
  else if x = 0 ∧ 0 < y then Real.pi / 2
  else if x = 0 ∧ y < 0 then -(Real.pi / 2)
  else 0

/-- Embedding of `haversine_distance` (`app.py`): great-circle distance
in kilometres, Earth radius 6371. -/
noncomputable def haversine_distance (lat1 lon1 lat2 lon2 : ℝ) : ℝ :=
  let dlat := radiansOf (lat2 - lat1)
  let dlon := radiansOf (lon2 - lon1)
  let a := Real.sin (dlat / 2) ^ 2 +
    Real.cos (radiansOf lat1) * Real.cos (radiansOf lat2) * Real.sin (dlon / 2) ^ 2
  let c := 2 * atan2 (Real.sqrt a) (Real.sqrt (1 - a))
  6371 * c

/-- Latitude of a filtered report as a real number. -/
noncomputable def latR (r : Report) : ℝ := ((r.latitude.getD 0 : ℚ) : ℝ)

/-- Longitude of a filtered report as a real number. -/
noncomputable def lngR (r : Report) : ℝ := ((r.longitude.getD 0 : ℚ) : ℝ)

/-- The seed-to-candidate distance test of the inner loop:
`distance <= radius_km` between reports `i` and `j` of the filtered
list. -/
noncomputable def nearSeed (valid : List Report) (radius : ℝ) (i j : ℕ) : Prop :=
  haversine_distance (latR (valid.getD i default)) (lngR (valid.getD i default))
    (latR (valid.getD j default)) (lngR (valid.getD j default)) ≤ radius

noncomputable instance nearSeedDecidable (valid : List Report) (radius : ℝ)
    (i j : ℕ) : Decidable (nearSeed valid radius i j) := by
  unfold nearSeed
  infer_instance

/-- Membership list of the cluster seeded at index `i`: the seed
followed by every still-unassigned index within `radius` of the seed, in
input order (`used` holds the indices assigned before this seed, and the
seed itself is excluded from its own scan as in the source's
`j in used_indices or i == j` test). -/
noncomputable def clusterMembers (valid : List Report) (radius : ℝ)
    (used : List ℕ) (i : ℕ) : List ℕ :=
  i :: (List.range valid.length).filter
    (fun j => !((i :: used).contains j) && decide (nearSeed valid radius i j))

/-- One cluster record, as assembled by the body of the outer loop.
`memberIdxs` is the bookkeeping of `used_indices` restricted to this
cluster; `members` are the corresponding report copies. -/
structure Cluster where
  memberIdxs : List ℕ
  members : List Report
  count : ℕ
  centroid_lat : ℚ
  centroid_lng : ℚ
  location_name : String
  first_report : String
  last_report : String
  hazard_types : List String
  severities : List String
  avg_confidence : ℚ

/-- `report['correlation_confidence'] or 0.0`. -/
def confOf (r : Report) : ℚ := r.correlation_confidence.getD 0

/-- Builds the cluster dict for a finalized member list: centroid as the
simple mean when the cluster has more than one member, lexicographic
min/max of the ISO timestamps, deduplicated hazard/severity sets (the
source's `list(set(...))` order is unspecified; first occurrences are
kept here), and the mean correlation confidence. -/
def mkCluster (valid : List Report) (mem : List ℕ) : Cluster :=
  let members := mem.map (fun k => valid.getD k default)
  let seed := members.headD default
  let name1 := if seed.address = "" then seed.city ++ ", " ++ seed.state else seed.address
  { memberIdxs := mem
    members := members
    count := members.length
    centroid_lat :=
      if 1 < members.length then
        (members.map (fun m => m.latitude.getD 0)).sum / (members.length : ℚ)
      else seed.latitude.getD 0
    centroid_lng :=
      if 1 < members.length then
        (members.map (fun m => m.longitude.getD 0)).sum / (members.length : ℚ)
      else seed.longitude.getD 0
    location_name := if name1 = "" then "Unknown Location" else name1
    first_report :=
      members.foldl (fun acc m => if m.created_at < acc then m.created_at else acc)
        seed.created_at
    last_report :=
      members.foldl (fun acc m => if acc < m.created_at then m.created_at else acc)
        seed.created_at
    hazard_types := (members.map (fun m => m.hazard_type)).eraseDups
    severities := (members.map (fun m => m.severity)).eraseDups
    avg_confidence := (members.map confOf).sum / (members.length : ℚ) }

/-- The greedy outer loop over seed candidates: a seed already assigned
is skipped, otherwise it absorbs every unassigned report within the
radius of the seed. -/
noncomputable def gcAux (valid : List Report) (radius : ℝ) :
    List ℕ → List ℕ → List Cluster
  | [], _ => []
  | i :: rest, used =>
    if i ∈ used then gcAux valid radius rest used
    else
      mkCluster valid (clusterMembers valid radius used i) ::
        gcAux valid radius rest (used ++ clusterMembers valid radius used i)

/-- Descending comparison on member counts, for the final
`clusters.sort(key=..., reverse=True)`. -/
def clusterCountDesc (a b : Cluster) : Bool := decide (b.count ≤ a.count)

/-- Embedding of `cluster_reports_by_location` (`app.py`). -/
noncomputable def cluster_reports_by_location (reports : List Report)
    (radius_km : ℝ) : List Cluster :=
  if reports = [] then []
  else
    let valid := validReports reports
    if valid = [] then []
    else
      (gcAux valid radius_km (List.range valid.length) []).mergeSort clusterCountDesc

lemma clusterMembers_nodup (valid : List Report) (radius : ℝ) (used : List ℕ)
    (i : ℕ) : (clusterMembers valid radius used i).Nodup := by
  unfold clusterMembers
  refine List.Nodup.cons ?_ ((List.nodup_range _).filter _)
  intro hmem
  have h := (List.mem_filter.mp hmem).2
  simp only [Bool.and_eq_true, Bool.not_eq_true', List.elem_eq_mem,
    decide_eq_false_iff_not] at h
  exact h.1 (List.mem_cons_self i used)

lemma mem_clusterMembers_bound {valid : List Report} {radius : ℝ} {used : List ℕ}
    {i : ℕ} (hi : i < valid.length) :
    ∀ x ∈ clusterMembers valid radius used i, x < valid.length := by
  intro x hx
  rcases List.mem_cons.mp hx with rfl | hx2
  · exact hi
  · exact List.mem_range.mp (List.mem_filter.mp hx2).1

lemma mem_clusterMembers_not_used {valid : List Report} {radius : ℝ}
    {used : List ℕ} {i : ℕ} (hiu : i ∉ used) :
    ∀ x ∈ clusterMembers valid radius used i, x ∉ used := by
  intro x hx
  rcases List.mem_cons.mp hx with rfl | hx2
  · exact hiu
  · have h := (List.mem_filter.mp hx2).2
    simp only [Bool.and_eq_true, Bool.not_eq_true', List.elem_eq_mem,
      decide_eq_false_iff_not] at h
    intro hxu
    exact h.1 (List.mem_cons_of_mem i hxu)

lemma self_mem_clusterMembers (valid : List Report) (radius : ℝ)
    (used : List ℕ) (i : ℕ) : i ∈ clusterMembers valid radius used i := by
  unfold clusterMembers
  exact List.mem_cons_self _ _

lemma count_clusterMembers (valid : List Report) (radius : ℝ) (used : List ℕ)
    (i x : ℕ) :
    (clusterMembers valid radius used i).count x =
      if x ∈ clusterMembers valid radius used i then 1 else 0 := by
  split
  · exact List.count_eq_one_of_mem (clusterMembers_nodup valid radius used i)
      (by assumption)
  · exact List.count_eq_zero.mpr (by assumption)

lemma gcAux_flatten_count (valid : List Report) (radius : ℝ) :
    ∀ (seeds used : List ℕ),
      (∀ x ∈ seeds, x < valid.length) →
      (∀ x, x < valid.length → x ∉ used → x ∈ seeds) →
      ∀ x, (((gcAux valid radius seeds used).map Cluster.memberIdxs).flatten).count x =
        if x < valid.length ∧ x ∉ used then 1 else 0 := by
  intro seeds
  induction seeds with
  | nil =>
    intro used hb hinv x
    simp only [gcAux, List.map_nil, List.flatten_nil, List.count_nil]
    rw [eq_comm, if_neg]
    rintro ⟨h1, h2⟩
    exact absurd (hinv x h1 h2) (List.not_mem_nil x)
  | cons i rest ih =>
    intro used hb hinv x
    by_cases hiu : i ∈ used
    · simp only [gcAux, if_pos hiu]
      apply ih
      · intro y hy
        exact hb y (List.mem_cons_of_mem _ hy)
      · intro y h1 h2
        rcases List.mem_cons.mp (hinv y h1 h2) with rfl | hy
        · exact absurd hiu h2
        · exact hy
    · simp only [gcAux, if_neg hiu, List.map_cons, List.flatten_cons, List.count_append]
      have hbi : i < valid.length := hb i (List.mem_cons_self i rest)
      have hrec := ih (used ++ clusterMembers valid radius used i)
        (fun y hy => hb y (List.mem_cons_of_mem _ hy))
        (by
          intro y h1 h2
          rw [List.mem_append] at h2
          push_neg at h2
          rcases List.mem_cons.mp (hinv y h1 h2.1) with rfl | hy
          · exact absurd (self_mem_clusterMembers valid radius used y) h2.2
          · exact hy) x
      have hcm : (mkCluster valid (clusterMembers valid radius used i)).memberIdxs =
          clusterMembers valid radius used i := rfl
      rw [hcm, hrec, count_clusterMembers]
      by_cases hxm : x ∈ clusterMembers valid radius used i
      · rw [if_pos hxm]
        have hx1 : x < valid.length := mem_clusterMembers_bound hbi x hxm
        have hx2 : x ∉ used := mem_clusterMembers_not_used hiu x hxm
        rw [if_neg, if_pos ⟨hx1, hx2⟩]
        rintro ⟨-, hx3⟩
        exact hx3 (List.mem_append.mpr (Or.inr hxm))
      · rw [if_neg hxm]
        by_cases hcond : x < valid.length ∧ x ∉ used
        · rw [if_pos ⟨hcond.1, by
            rw [List.mem_append]
            push_neg
            exact ⟨hcond.2, hxm⟩⟩, if_pos hcond]
        · rw [if_neg, if_neg hcond]
          rintro ⟨h1, h2⟩
          rw [List.mem_append] at h2
          push_neg at h2
          exact hcond ⟨h1, h2.1⟩

lemma gcAux_members_eq (valid : List Report) (radius : ℝ) :
    ∀ (seeds used : List ℕ), ∀ c ∈ gcAux valid radius seeds used,
      c.members = c.memberIdxs.map (fun k => valid.getD k default) := by
  intro seeds
  induction seeds with
  | nil => intro used c hc; simp [gcAux] at hc
  | cons i rest ih =>
    intro used c hc
    by_cases hiu : i ∈ used
    · rw [gcAux, if_pos hiu] at hc
      exact ih used c hc
    · rw [gcAux, if_neg hiu] at hc
      rcases List.mem_cons.mp hc with rfl | hc2
      · rfl
      · exact ih _ c hc2

lemma gcAux_memberIdxs_bound (valid : List Report) (radius : ℝ) :
    ∀ (seeds used : List ℕ), (∀ x ∈ seeds, x < valid.length) →
      ∀ c ∈ gcAux valid radius seeds used, ∀ k ∈ c.memberIdxs, k < valid.length := by
  intro seeds
  induction seeds with
  | nil => intro used hb c hc; simp [gcAux] at hc
  | cons i rest ih =>
    intro used hb c hc
    by_cases hiu : i ∈ used
    · rw [gcAux, if_pos hiu] at hc
      exact ih used (fun y hy => hb y (List.mem_cons_of_mem _ hy)) c hc
    · rw [gcAux, if_neg hiu] at hc
      rcases List.mem_cons.mp hc with rfl | hc2
      · exact mem_clusterMembers_bound (hb i (List.mem_cons_self i rest))
      · exact ih _ (fun y hy => hb y (List.mem_cons_of_mem _ hy)) c hc2

lemma gcAux_length_le (valid : List Report) (radius : ℝ) :
    ∀ (seeds used : List ℕ), (gcAux valid radius seeds used).length ≤ seeds.length := by
  intro seeds
  induction seeds with
  | nil => intro used; simp [gcAux]
  | cons i rest ih =>
    intro used
    by_cases hiu : i ∈ used
    · rw [gcAux, if_pos hiu]
      exact le_trans (ih used) (Nat.le_succ _)
    · rw [gcAux, if_neg hiu]
      simpa using Nat.succ_le_succ (ih _)

lemma gcAux_ne_nil (valid : List Report) (radius : ℝ) :
    ∀ (seeds used : List ℕ), (∃ i ∈ seeds, i ∉ used) →
      gcAux valid radius seeds used ≠ [] := by
  intro seeds
  induction seeds with
  | nil => rintro used ⟨i, hi, -⟩; simp at hi
  | cons i rest ih =>
    rintro used ⟨j, hj, hju⟩
    by_cases hiu : i ∈ used
    · rw [gcAux, if_pos hiu]
      rcases List.mem_cons.mp hj with rfl | hj2
      · exact absurd hiu hju
      · exact ih used ⟨j, hj2, hju⟩
    · rw [gcAux, if_neg hiu]
      simp

lemma count_range_eq (n a : ℕ) : (List.range n).count a = if a < n then 1 else 0 := by
  split
  · exact List.count_eq_one_of_mem (List.nodup_range n) (List.mem_range.mpr (by assumption))
  · exact List.count_eq_zero.mpr (by rw [List.mem_range]; assumption)

/-- Helper: the concatenated member-index lists of the returned clusters
are a permutation of the index range of the geotagged reports, and every
cluster's member reports are exactly its member indices looked up in the
filtered list. -/
lemma cluster_partition (reports : List Report) (radius : ℝ) :
    (((cluster_reports_by_location reports radius).map Cluster.memberIdxs).flatten).Perm
      (List.range (validReports reports).length) ∧
    ∀ c ∈ cluster_reports_by_location reports radius,
      c.members = c.memberIdxs.map (fun k => (validReports reports).getD k default) := by
  by_cases h0 : reports = []
  · subst h0
    constructor
    · simp [cluster_reports_by_location, validReports]
    · intro c hc
      simp [cluster_reports_by_location] at hc
  · by_cases h1 : validReports reports = []
    · constructor
      · simp [cluster_reports_by_location, if_neg h0, h1]
      · intro c hc
        simp [cluster_reports_by_location, if_neg h0, h1] at hc
    · have hsortperm : (cluster_reports_by_location reports radius).Perm
          (gcAux (validReports reports) radius
            (List.range (validReports reports).length) []) := by
        simp only [cluster_reports_by_location, if_neg h0, if_neg h1]
        exact List.mergeSort_perm _ _
      constructor
      · refine ((hsortperm.map Cluster.memberIdxs).flatten).trans ?_
        apply List.perm_iff_count.mpr
        intro x
        rw [gcAux_flatten_count (validReports reports) radius _ []
          (fun y hy => List.mem_range.mp hy)
          (fun y h1 _ => List.mem_range.mpr h1) x, count_range_eq]
        simp
      · intro c hc
        exact gcAux_members_eq (validReports reports) radius _ [] c
          (hsortperm.mem_iff.mp hc)

/-- C3: the clustering assigns every geotagged report to exactly one
cluster: no index appears in two clusters' member lists, and the union
of all member lists is exactly the set of geotagged input reports. -/
theorem c3_cluster_partition (reports : List Report) (radius : ℝ) :
    (((cluster_reports_by_location reports radius).map Cluster.memberIdxs).flatten).Perm
      (List.range (validReports reports).length) ∧
    ∀ c ∈ cluster_reports_by_location reports radius,
      c.members = c.memberIdxs.map (fun k => (validReports reports).getD k default) :=
  cluster_partition reports radius

/-- C10: a report whose latitude or longitude is missing or exactly 0
(Python truthiness) is dropped by the coordinate filter and therefore
appears in no cluster's member list. -/
theorem c10_zero_coordinate_exclusion (reports : List Report) (radius : ℝ)
    (rep : Report)
    (h : rep.latitude = none ∨ rep.latitude = some 0 ∨
      rep.longitude = none ∨ rep.longitude = some 0) :
    ∀ c ∈ cluster_reports_by_location reports radius, rep ∉ c.members := by
  have hnv : rep ∉ validReports reports := by
    intro hmem
    have hp := (List.mem_filter.mp hmem).2
    rcases h with h | h | h | h <;>
      · rw [h] at hp
        simp [truthyCoord] at hp
  intro c hc hrm
  have hmem2 := (cluster_partition reports radius).2 c hc
  rw [hmem2] at hrm
  obtain ⟨k, hk, hkrep⟩ := List.mem_map.mp hrm
  by_cases h0 : reports = []
  · subst h0
    simp [cluster_reports_by_location] at hc
  · by_cases h1 : validReports reports = []
    · simp [cluster_reports_by_location, if_neg h0, h1] at hc
    · have hsortperm : (cluster_reports_by_location reports radius).Perm
          (gcAux (validReports reports) radius
            (List.range (validReports reports).length) []) := by
        simp only [cluster_reports_by_location, if_neg h0, if_neg h1]
        exact List.mergeSort_perm _ _
      have hkb : k < (validReports reports).length :=
        gcAux_memberIdxs_bound (validReports reports) radius _ []
          (fun y hy => List.mem_range.mp hy) c (hsortperm.mem_iff.mp hc) k hk
      have : (validReports reports).getD k default ∈ validReports reports := by
        rw [List.getD_eq_getElem _ _ hkb]
        exact List.getElem_mem hkb
      rw [hkrep] at this
      exact hnv this

/-- C7 (amended): for a fixed report set the cluster count is not
monotone in the radius; what does hold at every radius is that the
count never exceeds the number of geotagged reports and is zero exactly
when there are none. -/
theorem c7_cluster_count_bounds (reports : List Report) (radius : ℝ) :
    (cluster_reports_by_location reports radius).length ≤
      (validReports reports).length ∧
    ((cluster_reports_by_location reports radius).length = 0 ↔
      (validReports reports).length = 0) := by
  by_cases h0 : reports = []
  · subst h0
    constructor
    · simp [cluster_reports_by_location]
    · simp [cluster_reports_by_location, validReports]
  · by_cases h1 : validReports reports = []
    · constructor
      · simp [cluster_reports_by_location, if_neg h0, h1]
      · simp [cluster_reports_by_location, if_neg h0, h1]
    · have hlen : (cluster_reports_by_location reports radius).length =
          (gcAux (validReports reports) radius
            (List.range (validReports reports).length) []).length := by
        simp only [cluster_reports_by_location, if_neg h0, if_neg h1]
        exact (List.mergeSort_perm _ _).length_eq
      constructor
      · rw [hlen]
        simpa using gcAux_length_le (validReports reports) radius
          (List.range (validReports reports).length) []
      · have hn : 0 < (validReports reports).length := List.length_pos.mpr h1
        have hne : (gcAux (validReports reports) radius
            (List.range (validReports reports).length) []) ≠ [] :=
          gcAux_ne_nil _ _ _ _ ⟨0, List.mem_range.mpr hn, List.not_mem_nil 0⟩
        constructor
        · intro hz
          rw [hlen] at hz
          exact absurd (List.length_eq_zero.mp hz) hne
        · intro hz
          omega

/-- A report sitting exactly on the equator (latitude 0.0). -/
def rZeroLat : Report :=
  { latitude := some 0, longitude := some 5, address := "a", city := "c",
    state := "s", created_at := "2024-01-01T00:00:00", hazard_type := "Flood",
    severity := "high", correlation_confidence := some (1/2) }

/-- A geotagged report with both coordinates truthy. -/
def rGeotagged : Report :=
  { latitude := some 19, longitude := some 72, address := "b", city := "c2",
    state := "s2", created_at := "2024-01-02T00:00:00", hazard_type := "Flood",
    severity := "low", correlation_confidence := none }

/-- Witness for C10: a report at latitude exactly 0.0 with a valid
longitude satisfies the hypothesis and is excluded from every cluster. -/
theorem c10_zero_coordinate_exclusion_witness :
    (rZeroLat.latitude = none ∨ rZeroLat.latitude = some 0 ∨
      rZeroLat.longitude = none ∨ rZeroLat.longitude = some 0) ∧
    ∀ c ∈ cluster_reports_by_location [rGeotagged, rZeroLat] 4, rZeroLat ∉ c.members := by
  have h : rZeroLat.latitude = none ∨ rZeroLat.latitude = some 0 ∨
      rZeroLat.longitude = none ∨ rZeroLat.longitude = some 0 :=
    Or.inr (Or.inl rfl)
  exact ⟨h, c10_zero_coordinate_exclusion [rGeotagged, rZeroLat] 4 rZeroLat h⟩

/-! ### C7: non-monotonicity of the cluster count in the radius.

The five concrete reports below sit near the equator; every pairwise
haversine comparison against the two radii is settled by elementary
sine/cosine bounds, so the greedy clustering can be evaluated exactly. -/

/-- The haversine intermediate `a` of `haversine_distance`. -/
noncomputable def havA (lat1 lon1 lat2 lon2 : ℝ) : ℝ :=
  Real.sin (radiansOf (lat2 - lat1) / 2) ^ 2 +
    Real.cos (radiansOf lat1) * Real.cos (radiansOf lat2) *
      Real.sin (radiansOf (lon2 - lon1) / 2) ^ 2

lemma atan2_sqrt_eq_arcsin {a : ℝ} (h0 : 0 ≤ a) (h1 : a < 1) :
    atan2 (Real.sqrt a) (Real.sqrt (1 - a)) = Real.arcsin (Real.sqrt a) := by
  have hx : 0 < Real.sqrt (1 - a) := Real.sqrt_pos.mpr (by linarith)
  rw [atan2, if_pos hx]
  have hlt : Real.sqrt a < 1 := by
    have := Real.sqrt_lt_sqrt h0 h1
    simpa [Real.sqrt_one] using this
  have hmem : Real.sqrt a ∈ Set.Ioo (-1 : ℝ) 1 :=
    ⟨lt_of_lt_of_le (by norm_num) (Real.sqrt_nonneg a), hlt⟩
  rw [Real.arcsin_eq_arctan hmem]
  congr 2
  rw [Real.sq_sqrt h0]

lemma haversine_eq_arcsin {lat1 lon1 lat2 lon2 : ℝ}
    (h0 : 0 ≤ havA lat1 lon1 lat2 lon2) (h1 : havA lat1 lon1 lat2 lon2 < 1) :
    haversine_distance lat1 lon1 lat2 lon2 =
      12742 * Real.arcsin (Real.sqrt (havA lat1 lon1 lat2 lon2)) := by
  simp only [haversine_distance]
  unfold havA at h0 h1 ⊢
  rw [atan2_sqrt_eq_arcsin h0 h1]
  ring

lemma haversine_le_radius {lat1 lon1 lat2 lon2 r : ℝ}
    (hrπ : r / 12742 ≤ Real.pi / 2)
    (h0 : 0 ≤ havA lat1 lon1 lat2 lon2) (h1 : havA lat1 lon1 lat2 lon2 < 1)
    (hA : havA lat1 lon1 lat2 lon2 ≤ Real.sin (r / 12742) ^ 2)
    (hr0 : 0 ≤ r) :
    haversine_distance lat1 lon1 lat2 lon2 ≤ r := by
  rw [haversine_eq_arcsin h0 h1]
  have ht0 : (0:ℝ) ≤ r / 12742 := by positivity
  have hs0 : 0 ≤ Real.sin (r / 12742) :=
    Real.sin_nonneg_of_nonneg_of_le_pi ht0
      (le_trans hrπ (by linarith [Real.pi_pos]))
  have hsq : Real.sqrt (havA lat1 lon1 lat2 lon2) ≤ Real.sin (r / 12742) := by
    have h2 : Real.sqrt (havA lat1 lon1 lat2 lon2) ≤
        Real.sqrt (Real.sin (r / 12742) ^ 2) := Real.sqrt_le_sqrt hA
    rwa [Real.sqrt_sq hs0] at h2
  have hlt : Real.sqrt (havA lat1 lon1 lat2 lon2) < 1 := by
    have := Real.sqrt_lt_sqrt h0 h1
    simpa [Real.sqrt_one] using this
  have harc : Real.arcsin (Real.sqrt (havA lat1 lon1 lat2 lon2)) ≤ r / 12742 := by
    refine (Real.arcsin_le_iff_le_sin ⟨?_, le_of_lt hlt⟩
      ⟨by linarith [Real.pi_pos], hrπ⟩).mpr hsq
    exact le_trans (by norm_num) (Real.sqrt_nonneg _)
  nlinarith [harc]

lemma haversine_gt_radius {lat1 lon1 lat2 lon2 r : ℝ}
    (hrπ : r / 12742 ≤ Real.pi / 2)
    (h0 : 0 ≤ havA lat1 lon1 lat2 lon2) (h1 : havA lat1 lon1 lat2 lon2 < 1)
    (hA : Real.sin (r / 12742) ^ 2 < havA lat1 lon1 lat2 lon2)
    (hr0 : 0 ≤ r) :
    ¬ haversine_distance lat1 lon1 lat2 lon2 ≤ r := by
  rw [haversine_eq_arcsin h0 h1]
  intro hle
  have harc : Real.arcsin (Real.sqrt (havA lat1 lon1 lat2 lon2)) ≤ r / 12742 := by
    nlinarith [hle]
  have hlt : Real.sqrt (havA lat1 lon1 lat2 lon2) < 1 := by
    have := Real.sqrt_lt_sqrt h0 h1
    simpa [Real.sqrt_one] using this
  have hsq : Real.sqrt (havA lat1 lon1 lat2 lon2) ≤ Real.sin (r / 12742) := by
    refine (Real.arcsin_le_iff_le_sin ⟨?_, le_of_lt hlt⟩
      ⟨by linarith [Real.pi_pos], hrπ⟩).mp harc
    exact le_trans (by norm_num) (Real.sqrt_nonneg _)
  have hsqA : Real.sqrt (havA lat1 lon1 lat2 lon2) ^ 2 = havA lat1 lon1 lat2 lon2 :=
    Real.sq_sqrt h0
  nlinarith [hsq, Real.sqrt_nonneg (havA lat1 lon1 lat2 lon2)]

/-- Two-sided Taylor bounds for the sine of a small rational multiple
of π, phrased against the six-digit bounds on π. -/
lemma sin_q_bounds (q : ℝ) (hq : 0 < q) (hq1 : q * 3.141593 ≤ 1) :
    q * 3.141592 - (q * 3.141593) ^ 3 / 4 < Real.sin (q * Real.pi) ∧
    Real.sin (q * Real.pi) < q * 3.141593 := by
  have hπl : (3.141592:ℝ) < Real.pi := Real.pi_gt_d6
  have hπh : Real.pi < 3.141593 := Real.pi_lt_d6
  have hx0 : 0 < q * Real.pi := mul_pos hq Real.pi_pos
  have hxu : q * Real.pi < q * 3.141593 := by nlinarith
  have hxl : q * 3.141592 < q * Real.pi := by nlinarith
  constructor
  · have h1 : q * Real.pi ≤ 1 := le_trans (le_of_lt hxu) hq1
    have h2 := Real.sin_gt_sub_cube hx0 h1
    have h3 : (q * Real.pi) ^ 3 < (q * 3.141593) ^ 3 := by
      apply pow_lt_pow_left₀ hxu (le_of_lt hx0)
      norm_num
    nlinarith [h2]
  · exact lt_trans (Real.sin_lt hx0) hxu

/-- Quadratic lower bound for the cosine of a small rational multiple
of π. -/
lemma cos_q_lower (q : ℝ) (hq : 0 < q) :
    1 - (q * 3.141593) ^ 2 / 2 < Real.cos (q * Real.pi) := by
  have hπh : Real.pi < 3.141593 := Real.pi_lt_d6
  have hx0 : 0 < q * Real.pi := mul_pos hq Real.pi_pos
  have hxu : q * Real.pi < q * 3.141593 := by nlinarith
  have h : 1 - (q * Real.pi) ^ 2 / 2 ≤ Real.cos (q * Real.pi) :=
    Real.one_sub_sq_div_two_le_cos
  nlinarith [h]

lemma sin120_gt : (0.0261754 : ℝ) < Real.sin ((1/120) * Real.pi) :=
  lt_of_le_of_lt (by norm_num) (sin_q_bounds (1/120) (by norm_num) (by norm_num)).1

lemma sin120_lt : Real.sin ((1/120) * Real.pi) < 0.02618 :=
  lt_of_lt_of_le (sin_q_bounds (1/120) (by norm_num) (by norm_num)).2 (by norm_num)

lemma sin180_gt : (0.0174519 : ℝ) < Real.sin ((1/180) * Real.pi) :=
  lt_of_le_of_lt (by norm_num) (sin_q_bounds (1/180) (by norm_num) (by norm_num)).1

lemma sin180_lt : Real.sin ((1/180) * Real.pi) < 0.0174534 :=
  lt_of_lt_of_le (sin_q_bounds (1/180) (by norm_num) (by norm_num)).2 (by norm_num)

lemma sin72_gt : (0.0436124 : ℝ) < Real.sin ((1/72) * Real.pi) :=
  lt_of_le_of_lt (by norm_num) (sin_q_bounds (1/72) (by norm_num) (by norm_num)).1

lemma sin72_lt : Real.sin ((1/72) * Real.pi) < 0.0436333 :=
  lt_of_lt_of_le (sin_q_bounds (1/72) (by norm_num) (by norm_num)).2 (by norm_num)

lemma sin90_gt : (0.0348959 : ℝ) < Real.sin ((1/90) * Real.pi) :=
  lt_of_le_of_lt (by norm_num) (sin_q_bounds (1/90) (by norm_num) (by norm_num)).1

lemma sin90_lt : Real.sin ((1/90) * Real.pi) < 0.0349066 :=
  lt_of_lt_of_le (sin_q_bounds (1/90) (by norm_num) (by norm_num)).2 (by norm_num)

lemma cos180_gt : (0.9998476 : ℝ) < Real.cos ((1/180) * Real.pi) :=
  lt_of_le_of_lt (by norm_num) (cos_q_lower (1/180) (by norm_num))

lemma cos45_gt : (0.997563 : ℝ) < Real.cos ((1/45) * Real.pi) :=
  lt_of_le_of_lt (by norm_num) (cos_q_lower (1/45) (by norm_num))

lemma cos30_gt : (0.9945168 : ℝ) < Real.cos ((1/30) * Real.pi) :=
  lt_of_le_of_lt (by norm_num) (cos_q_lower (1/30) (by norm_num))

lemma sinT1_lt : Real.sin ((266:ℝ)/12742) < 0.0208759 :=
  lt_of_lt_of_le (Real.sin_lt (by norm_num)) (by norm_num)

lemma sinT1_gt : (0.0208735 : ℝ) < Real.sin ((266:ℝ)/12742) :=
  lt_of_le_of_lt (by norm_num)
    (Real.sin_gt_sub_cube (by norm_num) (by norm_num))

lemma sinT1_nonneg : (0:ℝ) ≤ Real.sin ((266:ℝ)/12742) :=
  le_of_lt (lt_trans (by norm_num) sinT1_gt)

lemma sinT2_lt : Real.sin ((366:ℝ)/12742) < 0.028724 :=
  lt_of_lt_of_le (Real.sin_lt (by norm_num)) (by norm_num)

lemma sinT2_gt : (0.0287179 : ℝ) < Real.sin ((366:ℝ)/12742) :=
  lt_of_le_of_lt (by norm_num)
    (Real.sin_gt_sub_cube (by norm_num) (by norm_num))

lemma sinT2_nonneg : (0:ℝ) ≤ Real.sin ((366:ℝ)/12742) :=
  le_of_lt (lt_trans (by norm_num) sinT2_gt)

lemma r266_pi : (266:ℝ)/12742 ≤ Real.pi / 2 := by
  have := Real.pi_gt_three
  linarith

lemma r366_pi : (366:ℝ)/12742 ≤ Real.pi / 2 := by
  have := Real.pi_gt_three
  linarith

lemma hvAB_gt_266 : ¬ haversine_distance (1:ℝ) 20 4 20 ≤ 266 := by
  have hA_eq : havA (1:ℝ) 20 4 20 = Real.sin ((1/120) * Real.pi) ^ 2 := by
    unfold havA radiansOf
    have h1 : ((20:ℝ) - 20) * Real.pi / 180 / 2 = 0 := by ring
    have h2 : ((4:ℝ) - 1) * Real.pi / 180 / 2 = (1/120) * Real.pi := by ring
    rw [h1, h2, Real.sin_zero]
    ring
  apply haversine_gt_radius r266_pi
  · rw [hA_eq]; positivity
  · rw [hA_eq]
    nlinarith [sin120_lt, sin120_gt]
  · rw [hA_eq]
    nlinarith [sinT1_lt, sinT1_nonneg, sin120_gt]
  · norm_num

lemma hvAB_le_366 : haversine_distance (1:ℝ) 20 4 20 ≤ 366 := by
  have hA_eq : havA (1:ℝ) 20 4 20 = Real.sin ((1/120) * Real.pi) ^ 2 := by
    unfold havA radiansOf
    have h1 : ((20:ℝ) - 20) * Real.pi / 180 / 2 = 0 := by ring
    have h2 : ((4:ℝ) - 1) * Real.pi / 180 / 2 = (1/120) * Real.pi := by ring
    rw [h1, h2, Real.sin_zero]
    ring
  apply haversine_le_radius r366_pi
  · rw [hA_eq]; positivity
  · rw [hA_eq]
    nlinarith [sin120_lt, sin120_gt]
  · rw [hA_eq]
    nlinarith [sin120_lt, sin120_gt, sinT2_gt]
  · norm_num

lemma cos180_nonneg : (0:ℝ) ≤ Real.cos ((1/180) * Real.pi) :=
  le_of_lt (lt_trans (by norm_num) cos180_gt)

lemma cos45_nonneg : (0:ℝ) ≤ Real.cos ((1/45) * Real.pi) :=
  le_of_lt (lt_trans (by norm_num) cos45_gt)

lemma cos30_nonneg : (0:ℝ) ≤ Real.cos ((1/30) * Real.pi) :=
  le_of_lt (lt_trans (by norm_num) cos30_gt)

lemma hvAC_eq : havA (1:ℝ) 20 4 18 = Real.sin ((1/120) * Real.pi) ^ 2 +
    Real.cos ((1/180) * Real.pi) * Real.cos ((1/45) * Real.pi) *
      Real.sin ((1/180) * Real.pi) ^ 2 := by
  unfold havA radiansOf
  have h1 : ((4:ℝ) - 1) * Real.pi / 180 / 2 = (1/120) * Real.pi := by ring
  have h2 : ((18:ℝ) - 20) * Real.pi / 180 / 2 = -((1/180) * Real.pi) := by ring
  have h3 : (1:ℝ) * Real.pi / 180 = (1/180) * Real.pi := by ring
  have h4 : (4:ℝ) * Real.pi / 180 = (1/45) * Real.pi := by ring
  rw [h1, h2, h3, h4, Real.sin_neg]
  ring

lemma hvAD_eq : havA (1:ℝ) 20 4 22 = Real.sin ((1/120) * Real.pi) ^ 2 +
    Real.cos ((1/180) * Real.pi) * Real.cos ((1/45) * Real.pi) *
      Real.sin ((1/180) * Real.pi) ^ 2 := by
  unfold havA radiansOf
  have h1 : ((4:ℝ) - 1) * Real.pi / 180 / 2 = (1/120) * Real.pi := by ring
  have h2 : ((22:ℝ) - 20) * Real.pi / 180 / 2 = (1/180) * Real.pi := by ring
  have h3 : (1:ℝ) * Real.pi / 180 = (1/180) * Real.pi := by ring
  have h4 : (4:ℝ) * Real.pi / 180 = (1/45) * Real.pi := by ring
  rw [h1, h2, h3, h4]

lemma hvACD_side : 0 ≤ Real.sin ((1/120) * Real.pi) ^ 2 +
      Real.cos ((1/180) * Real.pi) * Real.cos ((1/45) * Real.pi) *
        Real.sin ((1/180) * Real.pi) ^ 2 ∧
    Real.sin ((1/120) * Real.pi) ^ 2 +
      Real.cos ((1/180) * Real.pi) * Real.cos ((1/45) * Real.pi) *
        Real.sin ((1/180) * Real.pi) ^ 2 < 1 ∧
    Real.sin ((366:ℝ)/12742) ^ 2 < Real.sin ((1/120) * Real.pi) ^ 2 +
      Real.cos ((1/180) * Real.pi) * Real.cos ((1/45) * Real.pi) *
        Real.sin ((1/180) * Real.pi) ^ 2 := by
  have hp : Real.cos ((1/180) * Real.pi) * Real.cos ((1/45) * Real.pi) ≤ 1 := by
    nlinarith [Real.cos_le_one ((1/180) * Real.pi), Real.cos_le_one ((1/45) * Real.pi),
      cos180_gt, cos45_gt]
  have hp2 : (0.99741:ℝ) < Real.cos ((1/180) * Real.pi) * Real.cos ((1/45) * Real.pi) := by
    nlinarith [cos180_gt, cos45_gt]
  have hs2 : (0.0003045:ℝ) < Real.sin ((1/180) * Real.pi) ^ 2 := by
    nlinarith [sin180_gt]
  refine ⟨?_, ?_, ?_⟩
  · exact add_nonneg (sq_nonneg _)
      (mul_nonneg (mul_nonneg cos180_nonneg cos45_nonneg) (sq_nonneg _))
  · nlinarith [hp, sin120_lt, sin120_gt, sin180_lt, sin180_gt,
      sq_nonneg (Real.sin ((1/180) * Real.pi))]
  · nlinarith [sin120_gt, hp2, hs2, sinT2_lt, sinT2_nonneg]

lemma hvAC_gt_366 : ¬ haversine_distance (1:ℝ) 20 4 18 ≤ 366 := by
  obtain ⟨h0, h1, hA⟩ := hvACD_side
  apply haversine_gt_radius r366_pi
  · rw [hvAC_eq]; exact h0
  · rw [hvAC_eq]; exact h1
  · rw [hvAC_eq]; exact hA
  · norm_num

lemma hvAD_gt_366 : ¬ haversine_distance (1:ℝ) 20 4 22 ≤ 366 := by
  obtain ⟨h0, h1, hA⟩ := hvACD_side
  apply haversine_gt_radius r366_pi
  · rw [hvAD_eq]; exact h0
  · rw [hvAD_eq]; exact h1
  · rw [hvAD_eq]; exact hA
  · norm_num

lemma hvAE_gt_366 : ¬ haversine_distance (1:ℝ) 20 6 20 ≤ 366 := by
  have hA_eq : havA (1:ℝ) 20 6 20 = Real.sin ((1/72) * Real.pi) ^ 2 := by
    unfold havA radiansOf
    have h1 : ((20:ℝ) - 20) * Real.pi / 180 / 2 = 0 := by ring
    have h2 : ((6:ℝ) - 1) * Real.pi / 180 / 2 = (1/72) * Real.pi := by ring
    rw [h1, h2, Real.sin_zero]
    ring
  apply haversine_gt_radius r366_pi
  · rw [hA_eq]; positivity
  · rw [hA_eq]
    nlinarith [sin72_lt, sin72_gt]
  · rw [hA_eq]
    nlinarith [sinT2_lt, sinT2_nonneg, sin72_gt]
  · norm_num

lemma hvBC_eq : havA (4:ℝ) 20 4 18 =
    Real.cos ((1/45) * Real.pi) * Real.cos ((1/45) * Real.pi) *
      Real.sin ((1/180) * Real.pi) ^ 2 := by
  unfold havA radiansOf
  have h1 : ((4:ℝ) - 4) * Real.pi / 180 / 2 = 0 := by ring
  have h2 : ((18:ℝ) - 20) * Real.pi / 180 / 2 = -((1/180) * Real.pi) := by ring
  have h4 : (4:ℝ) * Real.pi / 180 = (1/45) * Real.pi := by ring
  rw [h1, h2, h4, Real.sin_zero, Real.sin_neg]
  ring

lemma hvBD_eq : havA (4:ℝ) 20 4 22 =
    Real.cos ((1/45) * Real.pi) * Real.cos ((1/45) * Real.pi) *
      Real.sin ((1/180) * Real.pi) ^ 2 := by
  unfold havA radiansOf
  have h1 : ((4:ℝ) - 4) * Real.pi / 180 / 2 = 0 := by ring
  have h2 : ((22:ℝ) - 20) * Real.pi / 180 / 2 = (1/180) * Real.pi := by ring
  have h4 : (4:ℝ) * Real.pi / 180 = (1/45) * Real.pi := by ring
  rw [h1, h2, h4, Real.sin_zero]
  ring

lemma hvBCD_side : 0 ≤ Real.cos ((1/45) * Real.pi) * Real.cos ((1/45) * Real.pi) *
      Real.sin ((1/180) * Real.pi) ^ 2 ∧
    Real.cos ((1/45) * Real.pi) * Real.cos ((1/45) * Real.pi) *
      Real.sin ((1/180) * Real.pi) ^ 2 < 1 ∧
    Real.cos ((1/45) * Real.pi) * Real.cos ((1/45) * Real.pi) *
      Real.sin ((1/180) * Real.pi) ^ 2 ≤ Real.sin ((266:ℝ)/12742) ^ 2 := by
  have hp : Real.cos ((1/45) * Real.pi) * Real.cos ((1/45) * Real.pi) ≤ 1 := by
    nlinarith [Real.cos_le_one ((1/45) * Real.pi), cos45_gt]
  refine ⟨?_, ?_, ?_⟩
  · exact mul_nonneg (mul_nonneg cos45_nonneg cos45_nonneg) (sq_nonneg _)
  · nlinarith [hp, sin180_lt, sin180_gt, sq_nonneg (Real.sin ((1/180) * Real.pi))]
  · nlinarith [hp, sin180_lt, sin180_gt, sinT1_gt,
      sq_nonneg (Real.sin ((1/180) * Real.pi))]

lemma hvBC_le_266 : haversine_distance (4:ℝ) 20 4 18 ≤ 266 := by
  obtain ⟨h0, h1, hA⟩ := hvBCD_side
  apply haversine_le_radius r266_pi
  · rw [hvBC_eq]; exact h0
  · rw [hvBC_eq]; exact h1
  · rw [hvBC_eq]; exact hA
  · norm_num

lemma hvBD_le_266 : haversine_distance (4:ℝ) 20 4 22 ≤ 266 := by
  obtain ⟨h0, h1, hA⟩ := hvBCD_side
  apply haversine_le_radius r266_pi
  · rw [hvBD_eq]; exact h0
  · rw [hvBD_eq]; exact h1
  · rw [hvBD_eq]; exact hA
  · norm_num

lemma hvBE_le_266 : haversine_distance (4:ℝ) 20 6 20 ≤ 266 := by
  have hA_eq : havA (4:ℝ) 20 6 20 = Real.sin ((1/180) * Real.pi) ^ 2 := by
    unfold havA radiansOf
    have h1 : ((20:ℝ) - 20) * Real.pi / 180 / 2 = 0 := by ring
    have h2 : ((6:ℝ) - 4) * Real.pi / 180 / 2 = (1/180) * Real.pi := by ring
    rw [h1, h2, Real.sin_zero]
    ring
  apply haversine_le_radius r266_pi
  · rw [hA_eq]; positivity
  · rw [hA_eq]
    nlinarith [sin180_lt, sin180_gt]
  · rw [hA_eq]
    nlinarith [sin180_lt, sin180_gt, sinT1_gt]
  · norm_num

lemma hvCD_gt_366 : ¬ haversine_distance (4:ℝ) 18 4 22 ≤ 366 := by
  have hA_eq : havA (4:ℝ) 18 4 22 =
      Real.cos ((1/45) * Real.pi) * Real.cos ((1/45) * Real.pi) *
        Real.sin ((1/90) * Real.pi) ^ 2 := by
    unfold havA radiansOf
    have h1 : ((4:ℝ) - 4) * Real.pi / 180 / 2 = 0 := by ring
    have h2 : ((22:ℝ) - 18) * Real.pi / 180 / 2 = (1/90) * Real.pi := by ring
    have h4 : (4:ℝ) * Real.pi / 180 = (1/45) * Real.pi := by ring
    rw [h1, h2, h4, Real.sin_zero]
    ring
  have hcs : (0.0348108:ℝ) < Real.cos ((1/45) * Real.pi) * Real.sin ((1/90) * Real.pi) := by
    nlinarith [cos45_gt, sin90_gt]
  have hp : Real.cos ((1/45) * Real.pi) * Real.cos ((1/45) * Real.pi) ≤ 1 := by
    nlinarith [Real.cos_le_one ((1/45) * Real.pi), cos45_gt]
  apply haversine_gt_radius r366_pi
  · rw [hA_eq]
    exact mul_nonneg (mul_nonneg cos45_nonneg cos45_nonneg) (sq_nonneg _)
  · rw [hA_eq]
    nlinarith [hp, sin90_lt, sin90_gt, sq_nonneg (Real.sin ((1/90) * Real.pi))]
  · rw [hA_eq]
    nlinarith [hcs, sinT2_lt, sinT2_nonneg]
  · norm_num

lemma hvCE_le_366 : haversine_distance (4:ℝ) 18 6 20 ≤ 366 := by
  have hA_eq : havA (4:ℝ) 18 6 20 = Real.sin ((1/180) * Real.pi) ^ 2 +
      Real.cos ((1/45) * Real.pi) * Real.cos ((1/30) * Real.pi) *
        Real.sin ((1/180) * Real.pi) ^ 2 := by
    unfold havA radiansOf
    have h1 : ((6:ℝ) - 4) * Real.pi / 180 / 2 = (1/180) * Real.pi := by ring
    have h2 : ((20:ℝ) - 18) * Real.pi / 180 / 2 = (1/180) * Real.pi := by ring
    have h3 : (4:ℝ) * Real.pi / 180 = (1/45) * Real.pi := by ring
    have h4 : (6:ℝ) * Real.pi / 180 = (1/30) * Real.pi := by ring
    rw [h1, h2, h3, h4]
  have hp : Real.cos ((1/45) * Real.pi) * Real.cos ((1/30) * Real.pi) ≤ 1 := by
    nlinarith [Real.cos_le_one ((1/45) * Real.pi), Real.cos_le_one ((1/30) * Real.pi),
      cos45_gt, cos30_gt]
  apply haversine_le_radius r366_pi
  · rw [hA_eq]
    exact add_nonneg (sq_nonneg _)
      (mul_nonneg (mul_nonneg cos45_nonneg cos30_nonneg) (sq_nonneg _))
  · rw [hA_eq]
    nlinarith [hp, sin180_lt, sin180_gt, sq_nonneg (Real.sin ((1/180) * Real.pi))]
  · rw [hA_eq]
    nlinarith [hp, sin180_lt, sin180_gt, sinT2_gt,
      sq_nonneg (Real.sin ((1/180) * Real.pi))]
  · norm_num

lemma hvAC_gt_266 : ¬ haversine_distance (1:ℝ) 20 4 18 ≤ 266 := by
  intro h
  exact hvAC_gt_366 (le_trans h (by norm_num))

lemma hvAD_gt_266 : ¬ haversine_distance (1:ℝ) 20 4 22 ≤ 266 := by
  intro h
  exact hvAD_gt_366 (le_trans h (by norm_num))

lemma hvAE_gt_266 : ¬ haversine_distance (1:ℝ) 20 6 20 ≤ 266 := by
  intro h
  exact hvAE_gt_366 (le_trans h (by norm_num))

/-- Report a of the C7 counterexample (latitude 1, longitude 20). -/
def repA : Report :=
  { latitude := some 1, longitude := some 20, address := "a", city := "ca",
    state := "s", created_at := "t1", hazard_type := "Flood", severity := "high",
    correlation_confidence := none }

/-- Report b: the hub at (4, 20). -/
def repB : Report := { repA with latitude := some 4, longitude := some 20 }

/-- Report c at (4, 18). -/
def repC : Report := { repA with latitude := some 4, longitude := some 18 }

/-- Report d at (4, 22). -/
def repD : Report := { repA with latitude := some 4, longitude := some 22 }

/-- Report e at (6, 20). -/
def repE : Report := { repA with latitude := some 6, longitude := some 20 }

/-- The C7 counterexample batch, in input order. -/
def exReports : List Report := [repA, repB, repC, repD, repE]

lemma exValid : validReports exReports = exReports := rfl

lemma latE0 : latR (exReports.getD 0 default) = 1 := by
  norm_num [exReports, repA, latR]

lemma lngE0 : lngR (exReports.getD 0 default) = 20 := by
  norm_num [exReports, repA, lngR]

lemma latE1 : latR (exReports.getD 1 default) = 4 := by
  norm_num [exReports, repA, repB, latR]

lemma lngE1 : lngR (exReports.getD 1 default) = 20 := by
  norm_num [exReports, repA, repB, lngR]

lemma latE2 : latR (exReports.getD 2 default) = 4 := by
  norm_num [exReports, repA, repC, latR]

lemma lngE2 : lngR (exReports.getD 2 default) = 18 := by
  norm_num [exReports, repA, repC, lngR]

lemma latE3 : latR (exReports.getD 3 default) = 4 := by
  norm_num [exReports, repA, repD, latR]

lemma lngE3 : lngR (exReports.getD 3 default) = 22 := by
  norm_num [exReports, repA, repD, lngR]

lemma latE4 : latR (exReports.getD 4 default) = 6 := by
  norm_num [exReports, repA, repE, latR]

lemma lngE4 : lngR (exReports.getD 4 default) = 20 := by
  norm_num [exReports, repA, repE, lngR]

lemma nf266_01 : ¬ nearSeed exReports 266 0 1 := by
  unfold nearSeed
  rw [latE0, lngE0, latE1, lngE1]
  exact hvAB_gt_266

lemma nf266_02 : ¬ nearSeed exReports 266 0 2 := by
  unfold nearSeed
  rw [latE0, lngE0, latE2, lngE2]
  exact hvAC_gt_266

lemma nf266_03 : ¬ nearSeed exReports 266 0 3 := by
  unfold nearSeed
  rw [latE0, lngE0, latE3, lngE3]
  exact hvAD_gt_266

lemma nf266_04 : ¬ nearSeed exReports 266 0 4 := by
  unfold nearSeed
  rw [latE0, lngE0, latE4, lngE4]
  exact hvAE_gt_266

lemma nf266_12 : nearSeed exReports 266 1 2 := by
  unfold nearSeed
  rw [latE1, lngE1, latE2, lngE2]
  exact hvBC_le_266

lemma nf266_13 : nearSeed exReports 266 1 3 := by
  unfold nearSeed
  rw [latE1, lngE1, latE3, lngE3]
  exact hvBD_le_266

lemma nf266_14 : nearSeed exReports 266 1 4 := by
  unfold nearSeed
  rw [latE1, lngE1, latE4, lngE4]
  exact hvBE_le_266

lemma nf366_01 : nearSeed exReports 366 0 1 := by
  unfold nearSeed
  rw [latE0, lngE0, latE1, lngE1]
  exact hvAB_le_366

lemma nf366_02 : ¬ nearSeed exReports 366 0 2 := by
  unfold nearSeed
  rw [latE0, lngE0, latE2, lngE2]
  exact hvAC_gt_366

lemma nf366_03 : ¬ nearSeed exReports 366 0 3 := by
  unfold nearSeed
  rw [latE0, lngE0, latE3, lngE3]
  exact hvAD_gt_366

lemma nf366_04 : ¬ nearSeed exReports 366 0 4 := by
  unfold nearSeed
  rw [latE0, lngE0, latE4, lngE4]
  exact hvAE_gt_366

lemma nf366_23 : ¬ nearSeed exReports 366 2 3 := by
  unfold nearSeed
  rw [latE2, lngE2, latE3, lngE3]
  exact hvCD_gt_366

lemma nf366_24 : nearSeed exReports 366 2 4 := by
  unfold nearSeed
  rw [latE2, lngE2, latE4, lngE4]
  exact hvCE_le_366

lemma cm266_0 : clusterMembers exReports 266 [] 0 = [0] := by
  unfold clusterMembers
  have hr : List.range exReports.length = [0, 1, 2, 3, 4] := rfl
  rw [hr]
  simp only [List.filter_cons, List.filter_nil, decide_eq_false nf266_01,
    decide_eq_false nf266_02, decide_eq_false nf266_03, decide_eq_false nf266_04]
  norm_num

lemma cm266_1 : clusterMembers exReports 266 [0] 1 = [1, 2, 3, 4] := by
  unfold clusterMembers
  have hr : List.range exReports.length = [0, 1, 2, 3, 4] := rfl
  rw [hr]
  simp only [List.filter_cons, List.filter_nil, decide_eq_true nf266_12,
    decide_eq_true nf266_13, decide_eq_true nf266_14]
  norm_num

lemma cm366_0 : clusterMembers exReports 366 [] 0 = [0, 1] := by
  unfold clusterMembers
  have hr : List.range exReports.length = [0, 1, 2, 3, 4] := rfl
  rw [hr]
  simp only [List.filter_cons, List.filter_nil, decide_eq_true nf366_01,
    decide_eq_false nf366_02, decide_eq_false nf366_03, decide_eq_false nf366_04]
  norm_num

lemma cm366_2 : clusterMembers exReports 366 [0, 1] 2 = [2, 4] := by
  unfold clusterMembers
  have hr : List.range exReports.length = [0, 1, 2, 3, 4] := rfl
  rw [hr]
  simp only [List.filter_cons, List.filter_nil, decide_eq_false nf366_23,
    decide_eq_true nf366_24]
  norm_num

lemma cm366_3 : clusterMembers exReports 366 [0, 1, 2, 4] 3 = [3] := by
  unfold clusterMembers
  have hr : List.range exReports.length = [0, 1, 2, 3, 4] := rfl
  rw [hr]
  simp only [List.filter_cons, List.filter_nil]
  norm_num

lemma g266_len : (gcAux exReports 266 [0, 1, 2, 3, 4] []).length = 2 := by
  simp only [gcAux, cm266_0, cm266_1, List.nil_append, List.cons_append,
    List.mem_cons, List.not_mem_nil, List.mem_singleton]
  norm_num

lemma g366_len : (gcAux exReports 366 [0, 1, 2, 3, 4] []).length = 3 := by
  simp only [gcAux, cm366_0, cm366_2, cm366_3, List.nil_append, List.cons_append,
    List.mem_cons, List.not_mem_nil, List.mem_singleton]
  norm_num

/-- C7 counterexample: for this fixed report list the radii 266 ≤ 366
produce 2 and 3 clusters respectively — the cluster count increases with
the radius, refuting monotonicity.  (At 266 km the hub report b absorbs
c, d and e while a stays alone; at 366 km a absorbs b first, after
which c can only reach e and d is stranded.) -/
theorem c7_radius_counterexample :
    (266:ℝ) ≤ 366 ∧
    (cluster_reports_by_location exReports 266).length = 2 ∧
    (cluster_reports_by_location exReports 366).length = 3 := by
  have hne : exReports ≠ [] := by simp [exReports]
  have hr5 : List.range (validReports exReports).length = [0, 1, 2, 3, 4] := rfl
  have hlen1 : (cluster_reports_by_location exReports 266).length =
      (gcAux (validReports exReports) 266 [0, 1, 2, 3, 4] []).length := by
    simp only [cluster_reports_by_location, if_neg hne]
    rw [if_neg (by rw [exValid]; exact hne), hr5]
    exact (List.mergeSort_perm _ _).length_eq
  have hlen2 : (cluster_reports_by_location exReports 366).length =
      (gcAux (validReports exReports) 366 [0, 1, 2, 3, 4] []).length := by
    simp only [cluster_reports_by_location, if_neg hne]
    rw [if_neg (by rw [exValid]; exact hne), hr5]
    exact (List.mergeSort_perm _ _).length_eq
  refine ⟨by norm_num, ?_, ?_⟩
  · rw [hlen1, exValid]
    exact g266_len
  · rw [hlen2, exValid]
    exact g366_len
